import Mathlib

set_option linter.unusedVariables false

/-!
Verification development for the sQeeZ scripting-language parser
(`src/parser/parser.cpp`, final revision, together with its AST node model
and the external lexer's token contract).

The C++ parser is a recursive-descent parser over a `std::vector<Token>`
owned by the `Parser` object: every parsing function consumes tokens from
the front of that vector (via `advance`/`assertToken`) and either returns
an AST node or throws (`std::invalid_argument`, `std::logic_error`,
`std::runtime_error`).  We embed it as state-passing functions over a
`List Token`, with an explicit error type for the thrown exceptions, and a
`Nat` fuel argument to make the (in C++ unboundedly) mutually recursive
functions total.  Running out of fuel is reported by the distinguished
error `PError.outOfFuel`, which is never used to certify failure claims.

C++ undefined behaviour (reading the front or back of an empty vector,
dereferencing a null `unique_ptr`) is mapped to the distinguished error
`PError.undefinedBehavior`: the embedding is total, and those accesses hit
an error branch rather than producing a tree.

Null `unique_ptr<Expr>`/`unique_ptr<Stmt>` values (which the C++ tree uses
for "no initializer", "no color", "comment yielded no node", and for
`CallExpr`'s absent caller) are embedded by explicit `Expr.nullExpr` /
`Stmt.nullStmt` constructors, so a pointer field maps to a plain field.
-/

/-! ### The external lexer's token contract (spec §6)

The lexer is an external collaborator of this repository; the parser only
consumes its token model: a category tag, a category-specific sub-kind,
the raw text `value`, the canonical `plainText` form used for exact
grammar matching (e.g. "SyntaxToken::OPEN_BRACE"), and a source position.
-/

inductive BasicToken
  | INIT
  | TOKEN_EOF
deriving DecidableEq, Repr

inductive KeywordToken
  | VARIABLE
  | CONSTANT
  | FUNCTION
  | IF
  | ELSE
  | ELSE_IF
  | WHILE
  | DO
  | FOR
  | RETURN
  | IN
  | OF
deriving DecidableEq, Repr

inductive SyntaxToken
  | SEMICOLON
  | COMMA
  | COLON
  | DOT
  | OPEN_PARENTHESIS
  | CLOSE_PARENTHESIS
  | OPEN_BRACE
  | CLOSE_BRACE
  | OPEN_BRACKET
  | CLOSE_BRACKET
  | QUESTION_MARK
  | INLINE_COMMENT
  | AT
  | PIPE_OPERATOR
  | CALLBACK
  | DOUBLE_QUOTE
  | SINGLE_QUOTE
  | HASHTAG
deriving DecidableEq, Repr

inductive OperatorToken
  | ASSIGN
  | ADDITION
  | SUBTRACTION
  | MULTIPLICATION
  | DIVISION
  | MODULUS
  | POTENTIATION
  | INCREMENT
  | DECREMENT
  | ADDITION_ASSIGNMENT
  | SUBTRACTION_ASSIGNMENT
  | MULTIPLICATION_ASSIGNMENT
  | DIVISION_ASSIGNMENT
  | MODULUS_ASSIGNMENT
  | POTENTIATION_ASSIGNMENT
deriving DecidableEq, Repr

inductive LogicalToken
  | AND
  | OR
  | EQUAL
  | NOT_EQUAL
  | LESS
  | GREATER
  | LESS_EQUAL
  | GREATER_EQUAL
  | NOT
deriving DecidableEq, Repr

inductive LogToken
  | BASIC
  | COLORED
  | WARN
  | ERROR
deriving DecidableEq, Repr

inductive DataToken
  | IDENTIFIER
  | INTEGER_LITERAL
  | DOUBLE_LITERAL
  | BOOLEAN_LITERAL
  | NULL_LITERAL
  | STRING_LITERAL
  | CHAR_LITERAL
  | HEX_CODE_LITERAL
  | COMMENT_LITERAL
deriving DecidableEq, Repr

inductive ShortNotationToken
  | LENGTH | CONCAT | INCLUDES | INDEX_OF | LAST_INDEX_OF | SLICE
  | PUSH | POP | SHIFT | UNSHIFT | SPLICE | REVERSE | SORT | FILL | JOIN
  | COUNT | EVERY | SOME | FIND | FIND_INDEX | FIND_LAST | FIND_LAST_INDEX
  | FILTER | MAP | REDUCE | FLAT | FLAT_MAP | FOR_EACH
  | HAS_KEY | KEYS | VALUES | ENTRIES | GET
  | CHAR_AT | CHAR_CODE_AT | MATCH | MATCH_ALL | PAD_END | PAD_START
  | REPEAT | REPLACE | REPLACE_ALL | SPLIT | STARTS_WITH | ENDS_WITH
deriving DecidableEq, Repr

/-- `Token::TypeTag` (the category tag of a token). -/
inductive TypeTag
  | BASIC
  | KEYWORD
  | OPERATOR
  | SYNTAX_TAG
  | DATA
  | LOGICAL
  | LOG
  | SHORT_NOTATION_TAG
deriving DecidableEq, Repr

/-- The category-specific sub-kind (the C++ `union` inside `Token`). -/
inductive TokenType
  | basic (t : BasicToken)
  | keyword (t : KeywordToken)
  | operator_ (t : OperatorToken)
  | syntax_ (t : SyntaxToken)
  | data (t : DataToken)
  | logical (t : LogicalToken)
  | log (t : LogToken)
  | shortNotationTok (t : ShortNotationToken)
deriving DecidableEq, Repr

structure Token where
  tag : TypeTag
  typ : TokenType
  size : Nat
  pos : Nat
  value : String
  plainText : String
  desc : String
deriving DecidableEq, Repr

/-- Reading the union member `type.operatorToken`: defined when the stored
sub-kind is an operator sub-kind, `none` otherwise (the C++ union read with
a mismatching tag is unspecified; the parser always guards it with a tag
check except in `parseShortArgs`, see there). -/
def Token.operatorTok? (t : Token) : Option OperatorToken :=
  match t.typ with
  | .operator_ o => some o
  | _ => none

def Token.syntaxTok? (t : Token) : Option SyntaxToken :=
  match t.typ with
  | .syntax_ s => some s
  | _ => none

def Token.keywordTok? (t : Token) : Option KeywordToken :=
  match t.typ with
  | .keyword k => some k
  | _ => none

def Token.logicalTok? (t : Token) : Option LogicalToken :=
  match t.typ with
  | .logical l => some l
  | _ => none

def Token.dataTok? (t : Token) : Option DataToken :=
  match t.typ with
  | .data d => some d
  | _ => none

def Token.basicTok? (t : Token) : Option BasicToken :=
  match t.typ with
  | .basic b => some b
  | _ => none

def Token.logTok? (t : Token) : Option LogToken :=
  match t.typ with
  | .log l => some l
  | _ => none

def Token.shortTok? (t : Token) : Option ShortNotationToken :=
  match t.typ with
  | .shortNotationTok s => some s
  | _ => none

/-- `peek().tag == Token::TypeTag::SYNTAX && peek().type.syntaxToken == s` -/
def isSynTok (t : Token) (s : SyntaxToken) : Bool :=
  t.tag == .SYNTAX_TAG && t.syntaxTok? == some s

/-- `tag == Token::TypeTag::OPERATOR && type.operatorToken == o` -/
def isOpTok (t : Token) (o : OperatorToken) : Bool :=
  t.tag == .OPERATOR && t.operatorTok? == some o

/-- `tag == Token::TypeTag::KEYWORD && type.keywordToken == k` -/
def isKwTok (t : Token) (k : KeywordToken) : Bool :=
  t.tag == .KEYWORD && t.keywordTok? == some k

/-- `tag == Token::TypeTag::LOGICAL && type.logicalToken == l` -/
def isLogicalTok (t : Token) (l : LogicalToken) : Bool :=
  t.tag == .LOGICAL && t.logicalTok? == some l

/-- `tag == Token::TypeTag::DATA && type.dataToken == d` -/
def isDataTok (t : Token) (d : DataToken) : Bool :=
  t.tag == .DATA && t.dataTok? == some d

/-! Canonical `plainText` forms, per the lexer contract (spec §6: a canonical
"plain text" identifier string used for exact grammar matching, e.g.
`"SyntaxToken::OPEN_BRACE"`). -/

def basicPlain : BasicToken → String
  | .INIT => "BasicToken::INIT"
  | .TOKEN_EOF => "BasicToken::TOKEN_EOF"

def keywordPlain : KeywordToken → String
  | .VARIABLE => "KeywordToken::VARIABLE"
  | .CONSTANT => "KeywordToken::CONSTANT"
  | .FUNCTION => "KeywordToken::FUNCTION"
  | .IF => "KeywordToken::IF"
  | .ELSE => "KeywordToken::ELSE"
  | .ELSE_IF => "KeywordToken::ELSE_IF"
  | .WHILE => "KeywordToken::WHILE"
  | .DO => "KeywordToken::DO"
  | .FOR => "KeywordToken::FOR"
  | .RETURN => "KeywordToken::RETURN"
  | .IN => "KeywordToken::IN"
  | .OF => "KeywordToken::OF"

def syntaxPlain : SyntaxToken → String
  | .SEMICOLON => "SyntaxToken::SEMICOLON"
  | .COMMA => "SyntaxToken::COMMA"
  | .COLON => "SyntaxToken::COLON"
  | .DOT => "SyntaxToken::DOT"
  | .OPEN_PARENTHESIS => "SyntaxToken::OPEN_PARENTHESIS"
  | .CLOSE_PARENTHESIS => "SyntaxToken::CLOSE_PARENTHESIS"
  | .OPEN_BRACE => "SyntaxToken::OPEN_BRACE"
  | .CLOSE_BRACE => "SyntaxToken::CLOSE_BRACE"
  | .OPEN_BRACKET => "SyntaxToken::OPEN_BRACKET"
  | .CLOSE_BRACKET => "SyntaxToken::CLOSE_BRACKET"
  | .QUESTION_MARK => "SyntaxToken::QUESTION_MARK"
  | .INLINE_COMMENT => "SyntaxToken::INLINE_COMMENT"
  | .AT => "SyntaxToken::AT"
  | .PIPE_OPERATOR => "SyntaxToken::PIPE_OPERATOR"
  | .CALLBACK => "SyntaxToken::CALLBACK"
  | .DOUBLE_QUOTE => "SyntaxToken::DOUBLE_QUOTE"
  | .SINGLE_QUOTE => "SyntaxToken::SINGLE_QUOTE"
  | .HASHTAG => "SyntaxToken::HASHTAG"

def operatorPlain : OperatorToken → String
  | .ASSIGN => "OperatorToken::ASSIGN"
  | .ADDITION => "OperatorToken::ADDITION"
  | .SUBTRACTION => "OperatorToken::SUBTRACTION"
  | .MULTIPLICATION => "OperatorToken::MULTIPLICATION"
  | .DIVISION => "OperatorToken::DIVISION"
  | .MODULUS => "OperatorToken::MODULUS"
  | .POTENTIATION => "OperatorToken::POTENTIATION"
  | .INCREMENT => "OperatorToken::INCREMENT"
  | .DECREMENT => "OperatorToken::DECREMENT"
  | .ADDITION_ASSIGNMENT => "OperatorToken::ADDITION_ASSIGNMENT"
  | .SUBTRACTION_ASSIGNMENT => "OperatorToken::SUBTRACTION_ASSIGNMENT"
  | .MULTIPLICATION_ASSIGNMENT => "OperatorToken::MULTIPLICATION_ASSIGNMENT"
  | .DIVISION_ASSIGNMENT => "OperatorToken::DIVISION_ASSIGNMENT"
  | .MODULUS_ASSIGNMENT => "OperatorToken::MODULUS_ASSIGNMENT"
  | .POTENTIATION_ASSIGNMENT => "OperatorToken::POTENTIATION_ASSIGNMENT"

def logicalPlain : LogicalToken → String
  | .AND => "LogicalToken::AND"
  | .OR => "LogicalToken::OR"
  | .EQUAL => "LogicalToken::EQUAL"
  | .NOT_EQUAL => "LogicalToken::NOT_EQUAL"
  | .LESS => "LogicalToken::LESS"
  | .GREATER => "LogicalToken::GREATER"
  | .LESS_EQUAL => "LogicalToken::LESS_EQUAL"
  | .GREATER_EQUAL => "LogicalToken::GREATER_EQUAL"
  | .NOT => "LogicalToken::NOT"

def dataPlain : DataToken → String
  | .IDENTIFIER => "DataToken::IDENTIFIER"
  | .INTEGER_LITERAL => "DataToken::INTEGER_LITERAL"
  | .DOUBLE_LITERAL => "DataToken::DOUBLE_LITERAL"
  | .BOOLEAN_LITERAL => "DataToken::BOOLEAN_LITERAL"
  | .NULL_LITERAL => "DataToken::NULL_LITERAL"
  | .STRING_LITERAL => "DataToken::STRING_LITERAL"
  | .CHAR_LITERAL => "DataToken::CHAR_LITERAL"
  | .HEX_CODE_LITERAL => "DataToken::HEX_CODE_LITERAL"
  | .COMMENT_LITERAL => "DataToken::COMMENT_LITERAL"

def logPlain : LogToken → String
  | .BASIC => "LogToken::BASIC"
  | .COLORED => "LogToken::COLORED"
  | .WARN => "LogToken::WARN"
  | .ERROR => "LogToken::ERROR"

/-- Token constructors for concrete streams: tag and sub-kind consistent,
`plainText` set to the canonical form, as the lexer produces them. -/
def mkBasicTok (b : BasicToken) : Token :=
  { tag := .BASIC, typ := .basic b, size := 1, pos := 0,
    value := "", plainText := basicPlain b, desc := "" }

def mkKwTok (k : KeywordToken) : Token :=
  { tag := .KEYWORD, typ := .keyword k, size := 1, pos := 0,
    value := "", plainText := keywordPlain k, desc := "" }

def mkSynTok (s : SyntaxToken) : Token :=
  { tag := .SYNTAX_TAG, typ := .syntax_ s, size := 1, pos := 0,
    value := "", plainText := syntaxPlain s, desc := "" }

def mkOpTok (o : OperatorToken) : Token :=
  { tag := .OPERATOR, typ := .operator_ o, size := 1, pos := 0,
    value := "", plainText := operatorPlain o, desc := "" }

def mkLogicalTok (l : LogicalToken) : Token :=
  { tag := .LOGICAL, typ := .logical l, size := 1, pos := 0,
    value := "", plainText := logicalPlain l, desc := "" }

def mkLogTok (l : LogToken) : Token :=
  { tag := .LOG, typ := .log l, size := 1, pos := 0,
    value := "", plainText := logPlain l, desc := "" }

def mkDataTok (d : DataToken) (v : String) : Token :=
  { tag := .DATA, typ := .data d, size := 1, pos := 0,
    value := v, plainText := dataPlain d, desc := "" }

def identTok (name : String) : Token := mkDataTok .IDENTIFIER name

def intTok (v : String) : Token := mkDataTok .INTEGER_LITERAL v

def eofTok : Token := mkBasicTok .TOKEN_EOF

def initTok : Token := mkBasicTok .INIT

/-! ### Errors

The C++ parser signals failure by throwing `std::invalid_argument`
(grammar violations), `std::logic_error` (unrecognized primary token) and
`std::runtime_error` (`lookAhead` past the end). -/

inductive PError
  | invalidArgument (msg : String)
  | logicError (msg : String)
  | runtimeError (msg : String)
  | undefinedBehavior
  | outOfFuel
deriving DecidableEq, Repr

/-! ### The AST node model (`ast_nodes.hpp`)

Every C++ node class carries a `NodeType kind` tag set by its constructor;
`Expr` is a subclass of `Stmt`.  We embed the two families as mutually
inductive types, with a separate `Property` type for object-literal
entries (the C++ `Property` class), and explicit `nullExpr` / `nullStmt`
constructors for null `unique_ptr` values.  A C++ upcast of a (possibly
null) `unique_ptr<Expr>` to `unique_ptr<Stmt>` preserves nullness, which
`exprToStmt` reflects.  `DoubleLiteral` stores a C++ `double`
(`std::stod` of the token text); we embed it by the literal text itself,
which is injective on lexer-produced numerals and avoids floating-point
reasoning (no claim depends on double values). -/

inductive NodeType
  | Program
  | FunctionDeclaration
  | ReturnStmt
  | VarDeclaration
  | ConditionalStmt
  | WhileStmt
  | DoWhileStmt
  | ForStmt
  | ForInStmt
  | ForOfStmt
  | LogStmt
  | AssignmentExpr
  | CompoundAssignmentExpr
  | CallbackFunctionExpr
  | TernaryExpr
  | BinaryExpr
  | UnaryExpr
  | CallExpr
  | MemberExpr
  | Property
  | ObjectLiteral
  | ArrayLiteral
  | Identifier
  | NullLiteral
  | IntegerLiteral
  | DoubleLiteral
  | BooleanLiteral
  | CharLiteral
  | StringLiteral
  | HexCodeLiteral
  | ShortOperationLiteral
  | ShortSingleExpressionLiteral
  | ShortDoubleExpressionLiteral
deriving DecidableEq, Repr

mutual

inductive Expr
  | nullExpr
  | assignmentExpr (assignee value : Expr)
  | compoundAssignmentExpr (assignee value : Expr) (operator_ : Token)
  | callbackFunctionExpr (parameters : List Token) (body : List Stmt)
  | ternaryExpr (condition trueExpr falseExpr : Expr)
  | binaryExpr (left right : Expr) (operator_ : Token)
  | unaryExpr (operator_ : Token) (operand : Expr) (prefixed : Bool)
  | callExpr (caller method : Expr) (args : List Expr)
  | memberExpr (object property : Expr) (computed : Bool)
  | objectLiteral (properties : List Property)
  | arrayLiteral (elements : List Expr)
  | identifier (identifier : Token)
  | nullLiteral
  | integerLiteral (value : Int)
  | doubleLiteral (value : String)
  | booleanLiteral (value : Bool)
  | charLiteral (value : Char)
  | stringLiteral (value : String)
  | hexCodeLiteral (value : String)
  | shortOperationExpr (operation_ : Token) (value : Expr)

inductive Property
  | mk (key : Token) (value : Expr)

inductive Stmt
  | nullStmt
  | program (body : List Stmt)
  | functionDeclaration (name : Token) (parameters : List Token) (body : List Stmt)
  | returnStmt (value : Expr)
  | varDeclaration (type : Token) (declarations : List (Token × Expr))
  | conditionalStmt (ifClause : Expr × List Stmt)
      (elifClauses : List (Expr × List Stmt)) (elseBody : List Stmt)
  | whileStmt (condition : Expr) (body : List Stmt)
  | doWhileStmt (condition : Expr) (body : List Stmt)
  | forStmt (iterator : Stmt) (condition : Expr) (increment : Expr) (body : List Stmt)
  | forInStmt (iterator : Stmt) (iterable : Expr) (body : List Stmt)
  | forOfStmt (iterator : Stmt) (iterable : Expr) (body : List Stmt)
  | logStmt (logType : Token) (message : List Expr) (color : Expr)
  | exprStmt (e : Expr)

end

/-- The C++ upcast from `unique_ptr<Expr>` to `unique_ptr<Stmt>`
(`Expr` is a subclass of `Stmt`); a null pointer stays null. -/
def exprToStmt : Expr → Stmt
  | .nullExpr => .nullStmt
  | e => .exprStmt e

/-- The `kind` tag of an expression node, as set by the node constructors in
`ast_nodes.hpp`; `none` for a null pointer (reading `->kind` through a null
`unique_ptr` is undefined behaviour in the C++). -/
def Expr.kindOf : Expr → Option NodeType
  | .nullExpr => none
  | .assignmentExpr .. => some .AssignmentExpr
  | .compoundAssignmentExpr .. => some .CompoundAssignmentExpr
  | .callbackFunctionExpr .. => some .CallbackFunctionExpr
  | .ternaryExpr .. => some .TernaryExpr
  | .binaryExpr .. => some .BinaryExpr
  | .unaryExpr .. => some .UnaryExpr
  | .callExpr .. => some .CallExpr
  | .memberExpr .. => some .MemberExpr
  | .objectLiteral .. => some .ObjectLiteral
  | .arrayLiteral .. => some .ArrayLiteral
  | .identifier .. => some .Identifier
  | .nullLiteral => some .NullLiteral
  | .integerLiteral .. => some .IntegerLiteral
  | .doubleLiteral .. => some .DoubleLiteral
  | .booleanLiteral .. => some .BooleanLiteral
  | .charLiteral .. => some .CharLiteral
  | .stringLiteral .. => some .StringLiteral
  | .hexCodeLiteral .. => some .HexCodeLiteral
  | .shortOperationExpr .. => some .ShortOperationLiteral

/-- Decimal accumulation over the numeral's characters. -/
def stoiAux : List Char → Nat → Nat
  | [], acc => acc
  | c :: cs, acc => stoiAux cs (acc * 10 + (c.toNat - 48))

/-- `std::stoi` on an integer-literal token's text (the lexer guarantees a
plain decimal numeral, so the general `std::stoi` sign/whitespace/throw
behaviour is not exercised). -/
def stoi (s : String) : Int := Int.ofNat (stoiAux s.toList 0)

/-- `std::regex_match(value, ^true|false$)` from `parsePrimaryExpr`: with
`regex_match` the whole text must match one alternative, so this accepts
exactly "true" and "false". -/
def boolMatch (s : String) : Bool := s == "true" || s == "false"

/-- The parser's static `shortEnumToString` table mapping short-notation
sub-kinds to canonical method-name strings (`parser.hpp`). -/
def shortEnumToString : ShortNotationToken → String
  | .LENGTH => "length"
  | .CONCAT => "concat"
  | .INCLUDES => "includes"
  | .INDEX_OF => "indexOf"
  | .LAST_INDEX_OF => "lastIndexOf"
  | .SLICE => "slice"
  | .PUSH => "push"
  | .POP => "pop"
  | .SHIFT => "shift"
  | .UNSHIFT => "unshift"
  | .SPLICE => "splice"
  | .REVERSE => "reverse"
  | .SORT => "sort"
  | .FILL => "fill"
  | .JOIN => "join"
  | .COUNT => "count"
  | .EVERY => "every"
  | .SOME => "some"
  | .FIND => "find"
  | .FIND_INDEX => "findIndex"
  | .FIND_LAST => "findLast"
  | .FIND_LAST_INDEX => "findLastIndex"
  | .FILTER => "filter"
  | .MAP => "map"
  | .REDUCE => "reduce"
  | .FLAT => "flat"
  | .FLAT_MAP => "flatMap"
  | .FOR_EACH => "forEach"
  | .HAS_KEY => "hasKey"
  | .KEYS => "keys"
  | .VALUES => "values"
  | .ENTRIES => "entries"
  | .GET => "get"
  | .CHAR_AT => "charAt"
  | .CHAR_CODE_AT => "charCodeAt"
  | .MATCH => "match"
  | .MATCH_ALL => "matchAll"
  | .PAD_END => "padEnd"
  | .PAD_START => "padStart"
  | .REPEAT => "repeat"
  | .REPLACE => "replace"
  | .REPLACE_ALL => "replaceAll"
  | .SPLIT => "split"
  | .STARTS_WITH => "startsWith"
  | .ENDS_WITH => "endsWith"

/-! ### The parser monad

A parsing step maps the current token vector to either a thrown error or a
result together with the remaining vector.  Because the C++ parser only
ever removes tokens from the front (`advance` / `tokens.erase(begin())`),
the remaining vector is always a suffix of the input; the monad carries
that fact so that whole-stream theorems (claim C9) can use it without a
separate induction over every parsing function. -/

def PM (α : Type) : Type :=
  (ts : List Token) → Except PError (α × { rest : List Token // rest.IsSuffix ts })

def PM.pure (a : α) : PM α := fun ts => .ok (a, ⟨ts, List.suffix_refl ts⟩)

def PM.bind (x : PM α) (f : α → PM β) : PM β := fun ts =>
  match x ts with
  | .error e => .error e
  | .ok (a, ⟨ts1, h1⟩) =>
    match f a ts1 with
    | .error e => .error e
    | .ok (b, ⟨ts2, h2⟩) => .ok (b, ⟨ts2, h2.trans h1⟩)

instance : Monad PM where
  pure := PM.pure
  bind := PM.bind

/-- Throwing an exception. -/
def pfail (e : PError) : PM α := fun _ => .error e

/-- Run a parsing step, forgetting the suffix certificate: this is the view
all theorems are stated against. -/
def runP (x : PM α) (ts : List Token) : Except PError (α × List Token) :=
  match x ts with
  | .error e => .error e
  | .ok (a, s) => .ok (a, s.val)

/-- Lift an already-computed `Except` (no token consumption). -/
def liftEx (x : Except PError α) : PM α := fun ts =>
  match x with
  | .ok a => .ok (a, ⟨ts, List.suffix_refl ts⟩)
  | .error e => .error e

/-! ### Cursor / utility layer (`parser.cpp`, utility section) -/

/-- `Token Parser::peek(int steps)`: if fewer than `steps` tokens remain,
return `tokens.back()` (undefined behaviour on an empty vector, hence
`Option`), else `tokens[steps - 1]`.  All parser call sites use the default
`steps = 1`; `steps = 0` would be undefined behaviour in C++ (index -1) and
is never used. -/
def peekFn (ts : List Token) (steps : Nat) : Option Token :=
  if ts.length < steps then ts.getLast? else ts[steps - 1]?

/-- `Token Parser::lookAhead(int steps)`: like `peek`, but throws
`std::runtime_error("Unexpected end of file")` when the offset runs past
the end. -/
def lookAheadFn (ts : List Token) (steps : Nat) : Except PError Token :=
  if ts.length < steps then .error (.runtimeError "Unexpected end of file")
  else
    match ts[steps - 1]? with
    | some t => .ok t
    | none => .error .undefinedBehavior

/-- `Token Parser::advance()` as a state transformer: removes and returns
the front token.  `tokens.front()` on an empty vector is undefined
behaviour. -/
def advanceM : PM Token := fun ts =>
  match ts with
  | [] => .error .undefinedBehavior
  | t :: rest => .ok (t, ⟨rest, List.suffix_cons t rest⟩)

/-- Monadic `peek()` (the `steps = 1` case used by the parser). -/
def peekM : PM Token := fun ts =>
  match peekFn ts 1 with
  | none => .error .undefinedBehavior
  | some t => .ok (t, ⟨ts, List.suffix_refl ts⟩)

/-- Monadic `lookAhead(steps)`: inspects without consuming. -/
def lookAheadM (steps : Nat) : PM Token := fun ts =>
  match lookAheadFn ts steps with
  | .ok t => .ok (t, ⟨ts, List.suffix_refl ts⟩)
  | .error e => .error e

/-- `Token Parser::assertToken(expected, errorMessage)` as a state
transformer over the parser's token vector: it first `advance()`s (so the
front token is removed in every case), then compares the consumed token's
`plainText` with `expected`, throwing `std::invalid_argument` on a
mismatch.  The returned list is the vector's state after the call,
including when it throws. -/
def assertTokenFn (expected errorMessage : String) (ts : List Token) :
    Except PError Token × List Token :=
  match ts with
  | [] => (.error .undefinedBehavior, [])
  | t :: rest =>
    (if t.plainText = expected then .ok t
     else .error (.invalidArgument
       ("Unexpected token found: " ++ t.plainText ++ "\n" ++ errorMessage)), rest)

theorem assertTokenFn_suffix (expected errorMessage : String) (ts : List Token) :
    (assertTokenFn expected errorMessage ts).2.IsSuffix ts := by
  cases ts with
  | nil => simp [assertTokenFn]
  | cons t rest => exact List.suffix_cons t rest

/-- Monadic `assertToken` (the thrown error aborts the parse, so the
post-throw vector state is only observable through `assertTokenFn`). -/
def assertTokenM (expected errorMessage : String) : PM Token := fun ts =>
  match (assertTokenFn expected errorMessage ts).1 with
  | .ok t => .ok (t, ⟨(assertTokenFn expected errorMessage ts).2,
      assertTokenFn_suffix expected errorMessage ts⟩)
  | .error e => .error e

/-- `peek().tag == BASIC && peek().type.basicToken == TOKEN_EOF` on a single
token. -/
def isEOFTok (t : Token) : Bool :=
  t.tag == .BASIC && t.basicTok? == some .TOKEN_EOF

/-- `bool Parser::isEOF()`. -/
def isEOFM : PM Bool := do
  let t ← peekM
  pure (isEOFTok t)

/-- `void Parser::skipSemicolon()`. -/
def skipSemicolonM : PM Unit := do
  let t ← peekM
  if isSynTok t .SEMICOLON then do
    let _ ← assertTokenM "SyntaxToken::SEMICOLON" "Expected semicolon"
    pure ()
  else pure ()

/-- `void Parser::skipComment()`. -/
def skipCommentM : PM Unit := do
  let _ ← assertTokenM "SyntaxToken::INLINE_COMMENT" "Expected inline comment token"
  let t ← peekM
  if isDataTok t .COMMENT_LITERAL then do
    let _ ← assertTokenM "DataToken::COMMENT_LITERAL" "Expected comment literal"
    pure ()
  else pure ()

/-- The loop body of `parseFunctionDeclaration` that checks every argument
is an `Identifier` and extracts its token (throws otherwise; dereferencing
a null argument's `kind` is undefined behaviour). -/
def extractParams : List Expr → Except PError (List Token)
  | [] => .ok []
  | arg :: rest =>
    match arg with
    | .nullExpr => .error .undefinedBehavior
    | .identifier tok => (extractParams rest).map (tok :: ·)
    | _ => .error (.invalidArgument "Expected identifiers in function arguments list.")

/-! ### The parser proper (`parser.cpp`)

Each C++ `while`/`do-while` loop is embedded as its own recursive helper
(named `...Loop`); every function entry and loop iteration consumes one
unit of fuel.  Error-message strings are the source's, with `'`, `{`, `}`
written as escapes.  `buildAST` catches any exception and calls
`handleException`, which prints a diagnostic and terminates the process;
observationally no tree is produced, which the embedding models by letting
the error propagate. -/

mutual

def buildAST : Nat → PM Stmt
  | 0 => pfail .outOfFuel
  | fuel + 1 => do
    let body ← buildASTLoop fuel
    pure (.program body)

def buildASTLoop : Nat → PM (List Stmt)
  | 0 => pfail .outOfFuel
  | fuel + 1 => do
    let e ← isEOFM
    if e then pure []
    else do
      let statement ← parseStatement fuel
      let _ ← skipSemicolonM
      let rest ← buildASTLoop fuel
      match statement with
      | .nullStmt => pure rest
      | st => pure (st :: rest)

def parseStatement : Nat → PM Stmt
  | 0 => pfail .outOfFuel
  | fuel + 1 => do
    let t ← peekM
    if t.tag == .KEYWORD then
      match t.keywordTok? with
      | some .CONSTANT | some .VARIABLE => parseVarDeclaration fuel
      | some .FUNCTION => parseFunctionDeclaration fuel
      | some .IF => parseConditionalStatement fuel
      | some .WHILE => parseWhileStatement fuel
      | some .DO => parseDoWhileStatement fuel
      | some .FOR => parseForStatement fuel
      | some .RETURN => parseReturnStatement fuel
      | _ => do
        let e ← parseExpression fuel
        pure (exprToStmt e)
    else if t.tag == .LOG then parseLogStatement fuel
    else if isSynTok t .INLINE_COMMENT then do
      skipCommentM
      pure .nullStmt
    else do
      let e ← parseExpression fuel
      pure (exprToStmt e)

def parseStatementBlock : Nat → PM (List Stmt)
  | 0 => pfail .outOfFuel
  | fuel + 1 => do
    let statements ← parseStatementBlockLoop fuel
    let _ ← assertTokenM "SyntaxToken::CLOSE_BRACE" "Expected \x27\x7d\x27 to close statement block"
    pure statements

def parseStatementBlockLoop : Nat → PM (List Stmt)
  | 0 => pfail .outOfFuel
  | fuel + 1 => do
    let e ← isEOFM
    let t ← peekM
    if !e && !(isSynTok t .CLOSE_BRACE) then do
      let st ← parseStatement fuel
      let _ ← skipSemicolonM
      let rest ← parseStatementBlockLoop fuel
      pure (st :: rest)
    else pure []

def parseFunctionDeclaration : Nat → PM Stmt
  | 0 => pfail .outOfFuel
  | fuel + 1 => do
    let _ ← assertTokenM "KeywordToken::FUNCTION" "Expected \x27fn\x27 keyword to start function declaration."
    let name ← assertTokenM "DataToken::IDENTIFIER" "Expected function name following fn keyword"
    let args ← parseArgs fuel
    let params ← liftEx (extractParams args)
    let _ ← assertTokenM "SyntaxToken::OPEN_BRACE" "Expected function body following declaration"
    let body ← parseStatementBlock fuel
    pure (.functionDeclaration name params body)

def parseReturnStatement : Nat → PM Stmt
  | 0 => pfail .outOfFuel
  | fuel + 1 => do
    let _ ← assertTokenM "KeywordToken::RETURN" "Expected \x27return\x27 keyword to start return statement."
    let t ← peekM
    let value ←
      if !(isSynTok t .SEMICOLON) then parseExpression fuel
      else pure Expr.nullExpr
    let _ ← assertTokenM "SyntaxToken::SEMICOLON" "Expected \x27;\x27 after return statement."
    pure (.returnStmt value)

def parseVarDeclaration : Nat → PM Stmt
  | 0 => pfail .outOfFuel
  | fuel + 1 => do
    let type ← advanceM
    let declarations ← parseVarDeclLoop fuel
    pure (.varDeclaration type declarations)

def parseVarDeclLoop : Nat → PM (List (Token × Expr))
  | 0 => pfail .outOfFuel
  | fuel + 1 => do
    let identifier ← assertTokenM "DataToken::IDENTIFIER" "Expected identifier name following var | const keywords."
    let t ← peekM
    let value ←
      if isOpTok t .ASSIGN then do
        let _ ← assertTokenM "OperatorToken::ASSIGN" "Expected assign token following identifier in var declaration."
        parseExpression fuel
      else pure Expr.nullExpr
    let t2 ← peekM
    if isSynTok t2 .COMMA then do
      let _ ← assertTokenM "SyntaxToken::COMMA" "Expected comma for chaining multiple declarations."
      let rest ← parseVarDeclLoop fuel
      pure ((identifier, value) :: rest)
    else pure [(identifier, value)]

def parseConditionalStatement : Nat → PM Stmt
  | 0 => pfail .outOfFuel
  | fuel + 1 => do
    let _ ← assertTokenM "KeywordToken::IF" "Expected \x27if\x27 keyword to start conditional statement."
    let _ ← assertTokenM "SyntaxToken::OPEN_PARENTHESIS" "Expected open parenthesis following \x27if\x27 keyword."
    let condition ← parseLogicalExpr fuel
    let _ ← assertTokenM "SyntaxToken::CLOSE_PARENTHESIS" "Expected closing parenthesis following if condition."
    let _ ← assertTokenM "SyntaxToken::OPEN_BRACE" "Expected \x27\x7b\x27 after if condition."
    let body ← parseStatementBlock fuel
    let elifClauses ← parseElifLoop fuel
    let t ← peekM
    let elseBody ←
      if isKwTok t .ELSE then do
        let _ ← assertTokenM "KeywordToken::ELSE" "Expected \x27else\x27 keyword to start else clause."
        let _ ← assertTokenM "SyntaxToken::OPEN_BRACE" "Expected \x27\x7b\x27 after \x27else\x27."
        parseStatementBlock fuel
      else pure []
    pure (.conditionalStmt (condition, body) elifClauses elseBody)

def parseElifLoop : Nat → PM (List (Expr × List Stmt))
  | 0 => pfail .outOfFuel
  | fuel + 1 => do
    let t ← peekM
    if isKwTok t .ELSE_IF then do
      let _ ← assertTokenM "KeywordToken::ELSE_IF" "Expected \x27elif\x27 keyword to start elif clause."
      let _ ← assertTokenM "SyntaxToken::OPEN_PARENTHESIS" "Expected \x27(\x27 after \x27elif\x27."
      let elifCondition ← parseLogicalExpr fuel
      let _ ← assertTokenM "SyntaxToken::CLOSE_PARENTHESIS" "Expected \x27)\x27 after elif condition."
      let _ ← assertTokenM "SyntaxToken::OPEN_BRACE" "Expected \x27\x7b\x27 after elif condition."
      let elifBody ← parseStatementBlock fuel
      let rest ← parseElifLoop fuel
      pure ((elifCondition, elifBody) :: rest)
    else pure []

def parseWhileStatement : Nat → PM Stmt
  | 0 => pfail .outOfFuel
  | fuel + 1 => do
    let _ ← assertTokenM "KeywordToken::WHILE" "Expected \x27while\x27 keyword to start while statement."
    let _ ← assertTokenM "SyntaxToken::OPEN_PARENTHESIS" "Expected \x27(\x27 after \x27while\x27 keyword."
    let condition ← parseLogicalExpr fuel
    let _ ← assertTokenM "SyntaxToken::CLOSE_PARENTHESIS" "Expected \x27)\x27 after while condition."
    let _ ← assertTokenM "SyntaxToken::OPEN_BRACE" "Expected \x27\x7b\x27 after while condition."
    let body ← parseStatementBlock fuel
    pure (.whileStmt condition body)

def parseDoWhileStatement : Nat → PM Stmt
  | 0 => pfail .outOfFuel
  | fuel + 1 => do
    let _ ← assertTokenM "KeywordToken::DO" "Expected \x27do\x27 keyword to start do-while statement."
    let _ ← assertTokenM "SyntaxToken::OPEN_BRACE" "Expected \x27\x7b\x27 after \x27do\x27 keyword."
    let body ← parseStatementBlock fuel
    let _ ← assertTokenM "KeywordToken::WHILE" "Expected \x27while\x27 keyword after do-while body."
    let _ ← assertTokenM "SyntaxToken::OPEN_PARENTHESIS" "Expected \x27(\x27 after \x27while\x27 keyword."
    let condition ← parseLogicalExpr fuel
    let _ ← assertTokenM "SyntaxToken::CLOSE_PARENTHESIS" "Expected \x27)\x27 after while condition."
    let _ ← assertTokenM "SyntaxToken::SEMICOLON" "Expected \x27;\x27 after do-while statement."
    pure (.doWhileStmt condition body)

def parseForStatement : Nat → PM Stmt
  | 0 => pfail .outOfFuel
  | fuel + 1 => do
    let _ ← assertTokenM "KeywordToken::FOR" "Expected \x27for\x27 keyword to start for statement."
    let _ ← assertTokenM "SyntaxToken::OPEN_PARENTHESIS" "Expected \x27(\x27 after \x27for\x27 keyword."
    let iterator ← parseVarDeclaration fuel
    let t ← peekM
    if isKwTok t .IN then do
      let _ ← assertTokenM "KeywordToken::IN" "Expected \x27in\x27 keyword after for loop iterator."
      let iterable ← parseExpression fuel
      let _ ← assertTokenM "SyntaxToken::CLOSE_PARENTHESIS" "Expected \x27)\x27 after \x27in\x27 expression."
      let _ ← assertTokenM "SyntaxToken::OPEN_BRACE" "Expected \x27\x7b\x27 after for-in loop."
      let body ← parseStatementBlock fuel
      pure (.forInStmt iterator iterable body)
    else if isKwTok t .OF then do
      let _ ← assertTokenM "KeywordToken::OF" "Expected \x27of\x27 keyword after for loop iterator."
      let iterable ← parseExpression fuel
      let _ ← assertTokenM "SyntaxToken::CLOSE_PARENTHESIS" "Expected \x27)\x27 after \x27of\x27 expression."
      let _ ← assertTokenM "SyntaxToken::OPEN_BRACE" "Expected \x27\x7b\x27 after for-of loop."
      let body ← parseStatementBlock fuel
      pure (.forOfStmt iterator iterable body)
    else do
      let _ ← assertTokenM "SyntaxToken::SEMICOLON" "Expected \x27;\x27 after for loop iterator."
      let condition ← parseExpression fuel
      let _ ← assertTokenM "SyntaxToken::SEMICOLON" "Expected \x27;\x27 after for loop condition."
      let increment ← parseExpression fuel
      let _ ← assertTokenM "SyntaxToken::CLOSE_PARENTHESIS" "Expected \x27)\x27 after for loop increment statement."
      let _ ← assertTokenM "SyntaxToken::OPEN_BRACE" "Expected \x27\x7b\x27 after for loop increment statement."
      let body ← parseStatementBlock fuel
      pure (.forStmt iterator condition increment body)

def parseLogStatement : Nat → PM Stmt
  | 0 => pfail .outOfFuel
  | fuel + 1 => do
    let logType ← advanceM
    let _ ← assertTokenM "SyntaxToken::OPEN_PARENTHESIS" "Expected \x27(\x27 after log function call."
    let message ← parseLogMessages fuel
    let result ←
      if logType.tag == .LOG && logType.logTok? == some .COLORED then
        match message.getLast? with
        | none => pfail .undefinedBehavior
        | some colorExpr =>
          match colorExpr.kindOf with
          | none => pfail .undefinedBehavior
          | some k =>
            if k != .HexCodeLiteral then
              pfail (.invalidArgument "Expected hex code literal as last argument for a colored log.")
            else pure (message.dropLast, colorExpr)
      else pure (message, Expr.nullExpr)
    let _ ← assertTokenM "SyntaxToken::CLOSE_PARENTHESIS" "Expected \x27)\x27 after log function call."
    skipSemicolonM
    pure (.logStmt logType result.1 result.2)

def parseLogMessages : Nat → PM (List Expr)
  | 0 => pfail .outOfFuel
  | fuel + 1 => do
    let m ← parseExpression fuel
    let t ← peekM
    if isSynTok t .COMMA then do
      let _ ← assertTokenM "SyntaxToken::COMMA" "Expected \x27,\x27 between message expressions in log function call."
      let rest ← parseLogMessages fuel
      pure (m :: rest)
    else pure [m]

def parseExpression : Nat → PM Expr
  | 0 => pfail .outOfFuel
  | fuel + 1 => parseAssignmentExpr fuel

def parseAssignmentExpr : Nat → PM Expr
  | 0 => pfail .outOfFuel
  | fuel + 1 => do
    let left ← parseTernaryExpr fuel
    let t ← peekM
    if t.tag == .OPERATOR then
      match t.operatorTok? with
      | some .ASSIGN => do
        let _ ← assertTokenM "OperatorToken::ASSIGN" "Expected \x27=\x27 after assignment expression."
        let value ← parseAssignmentExpr fuel
        let expression := Expr.assignmentExpr left value
        skipSemicolonM
        pure expression
      | some .ADDITION_ASSIGNMENT | some .SUBTRACTION_ASSIGNMENT
      | some .MULTIPLICATION_ASSIGNMENT | some .DIVISION_ASSIGNMENT
      | some .MODULUS_ASSIGNMENT => do
        let operator_ ← advanceM
        let value ← parseAssignmentExpr fuel
        let expression := Expr.compoundAssignmentExpr left value operator_
        skipSemicolonM
        pure expression
      | _ => pure left
    else pure left

def parseTernaryExpr : Nat → PM Expr
  | 0 => pfail .outOfFuel
  | fuel + 1 => do
    let condition ← parseLogicalExpr fuel
    let t ← peekM
    if isSynTok t .QUESTION_MARK then do
      let _ ← assertTokenM "SyntaxToken::QUESTION_MARK" "Expected \x27?\x27 after condition in ternary operator."
      let trueExpr ← parseExpression fuel
      let _ ← assertTokenM "SyntaxToken::COLON" "Expected \x27:\x27 after true expression in ternary operator."
      let falseExpr ← parseExpression fuel
      pure (.ternaryExpr condition trueExpr falseExpr)
    else pure condition

def parseLogicalExpr : Nat → PM Expr
  | 0 => pfail .outOfFuel
  | fuel + 1 => do
    let left ← parseEqualityExpr fuel
    parseLogicalLoop fuel left

def parseLogicalLoop : Nat → Expr → PM Expr
  | 0, _ => pfail .outOfFuel
  | fuel + 1, left => do
    let t ← peekM
    if t.tag == .LOGICAL && (t.logicalTok? == some .AND || t.logicalTok? == some .OR) then do
      let operator_ ← advanceM
      let right ← parseEqualityExpr fuel
      parseLogicalLoop fuel (.binaryExpr left right operator_)
    else pure left

def parseEqualityExpr : Nat → PM Expr
  | 0 => pfail .outOfFuel
  | fuel + 1 => do
    let left ← parseRelationalExpr fuel
    parseEqualityLoop fuel left

def parseEqualityLoop : Nat → Expr → PM Expr
  | 0, _ => pfail .outOfFuel
  | fuel + 1, left => do
    let t ← peekM
    if t.tag == .LOGICAL && (t.logicalTok? == some .EQUAL || t.logicalTok? == some .NOT_EQUAL) then do
      let operator_ ← advanceM
      let right ← parseRelationalExpr fuel
      parseEqualityLoop fuel (.binaryExpr left right operator_)
    else pure left

def parseRelationalExpr : Nat → PM Expr
  | 0 => pfail .outOfFuel
  | fuel + 1 => do
    let left ← parseAdditiveExpr fuel
    parseRelationalLoop fuel left

def parseRelationalLoop : Nat → Expr → PM Expr
  | 0, _ => pfail .outOfFuel
  | fuel + 1, left => do
    let t ← peekM
    if t.tag == .LOGICAL &&
        (t.logicalTok? == some .LESS || t.logicalTok? == some .GREATER ||
         t.logicalTok? == some .LESS_EQUAL || t.logicalTok? == some .GREATER_EQUAL) then do
      let operator_ ← advanceM
      let right ← parseAdditiveExpr fuel
      parseRelationalLoop fuel (.binaryExpr left right operator_)
    else pure left

def parseObjectExpr : Nat → PM Expr
  | 0 => pfail .outOfFuel
  | fuel + 1 => do
    let _ ← assertTokenM "SyntaxToken::OPEN_BRACE" "Expected opening brace for object"
    let properties ← parseObjectLoop fuel
    let _ ← assertTokenM "SyntaxToken::CLOSE_BRACE" "Object literal missing closing brace."
    pure (.objectLiteral properties)

def parseObjectLoop : Nat → PM (List Property)
  | 0 => pfail .outOfFuel
  | fuel + 1 => do
    let e ← isEOFM
    let t ← peekM
    if !e && !(isSynTok t .CLOSE_BRACE) then do
      let key ← assertTokenM "DataToken::IDENTIFIER" "Object literal key expected"
      let t2 ← peekM
      if isSynTok t2 .COMMA then do
        let _ ← assertTokenM "SyntaxToken::COMMA" "Expected value chain following comma in ObjectExpr"
        let rest ← parseObjectLoop fuel
        pure (Property.mk key Expr.nullExpr :: rest)
      else if isSynTok t2 .CLOSE_BRACE then do
        let rest ← parseObjectLoop fuel
        pure (Property.mk key Expr.nullExpr :: rest)
      else do
        let _ ← assertTokenM "SyntaxToken::COLON" "Missing colon following identifier in ObjectExpr"
        let value ← parseExpression fuel
        let t3 ← peekM
        if !(isSynTok t3 .CLOSE_BRACE) then do
          let _ ← assertTokenM "SyntaxToken::COMMA" "Expected comma or closing bracket following property"
          let rest ← parseObjectLoop fuel
          pure (Property.mk key value :: rest)
        else do
          let rest ← parseObjectLoop fuel
          pure (Property.mk key value :: rest)
    else pure []

def parseArrayExpr : Nat → PM Expr
  | 0 => pfail .outOfFuel
  | fuel + 1 => do
    let _ ← assertTokenM "SyntaxToken::OPEN_BRACKET" "Expected opening bracket for array"
    let elements ← parseArrayLoop fuel
    let _ ← assertTokenM "SyntaxToken::CLOSE_BRACKET" "Array literal missing closing bracket."
    pure (.arrayLiteral elements)

def parseArrayLoop : Nat → PM (List Expr)
  | 0 => pfail .outOfFuel
  | fuel + 1 => do
    let e ← isEOFM
    let t ← peekM
    if !e && !(isSynTok t .CLOSE_BRACKET) then do
      let element ← parseExpression fuel
      let t2 ← peekM
      if !(isSynTok t2 .CLOSE_BRACKET) then do
        let _ ← assertTokenM "SyntaxToken::COMMA" "Expected comma or closing bracket following array element"
        let rest ← parseArrayLoop fuel
        pure (element :: rest)
      else do
        let rest ← parseArrayLoop fuel
        pure (element :: rest)
    else pure []

def parseCallbackFunctionExpr : Nat → PM Expr
  | 0 => pfail .outOfFuel
  | fuel + 1 => do
    let params ← callbackParamsLoop fuel false
    let _ ← assertTokenM "SyntaxToken::CLOSE_PARENTHESIS" "Expected closing parenthesis after callback function parameters."
    let _ ← assertTokenM "SyntaxToken::CALLBACK" "Expected \x27=>\x27 to start callback function body."
    let t ← peekM
    let body ←
      if isSynTok t .OPEN_BRACE then do
        let _ ← assertTokenM "SyntaxToken::OPEN_BRACE" "Expected \x27\x7b\x27 to start callback function body."
        parseStatementBlock fuel
      else do
        let st ← parseStatement fuel
        let _ ← skipSemicolonM
        pure [st]
    skipSemicolonM
    pure (.callbackFunctionExpr params body)

def callbackParamsLoop : Nat → Bool → PM (List Token)
  | 0, _ => pfail .outOfFuel
  | fuel + 1, nonempty => do
    let t ← peekM
    if !(isSynTok t .CLOSE_PARENTHESIS) then do
      let _ ←
        if nonempty then
          assertTokenM "SyntaxToken::COMMA" "Expected comma between callback function parameters."
        else pure t
      let p ← assertTokenM "DataToken::IDENTIFIER" "Expected identifier in callback function parameters."
      let rest ← callbackParamsLoop fuel true
      pure (p :: rest)
    else pure []

def parseShortData : Nat → PM Expr
  | 0 => pfail .outOfFuel
  | fuel + 1 => do
    let _ ← assertTokenM "SyntaxToken::AT" "Expected \x27@\x27 to start short data notation."
    let t2 ← lookAheadM 2
    if isSynTok t2 .COLON then do
      let properties ← shortObjectLoop fuel
      let _ ← assertTokenM "SyntaxToken::SEMICOLON" "Expected semicolon after short data notation."
      pure (.objectLiteral properties)
    else do
      let elements ← shortArrayLoop fuel
      let _ ← assertTokenM "SyntaxToken::SEMICOLON" "Expected semicolon after short data notation."
      pure (.arrayLiteral elements)

def shortObjectLoop : Nat → PM (List Property)
  | 0 => pfail .outOfFuel
  | fuel + 1 => do
    let key ← assertTokenM "DataToken::IDENTIFIER" "Expected identifier key in short data notation."
    let _ ← assertTokenM "SyntaxToken::COLON" "Expected colon after key in short data notation."
    let value ← parseExpression fuel
    let t ← peekM
    if isSynTok t .COMMA then do
      let _ ← assertTokenM "SyntaxToken::COMMA" "Expected comma between properties in short data notation."
      let rest ← shortObjectLoop fuel
      pure (Property.mk key value :: rest)
    else pure [Property.mk key value]

def shortArrayLoop : Nat → PM (List Expr)
  | 0 => pfail .outOfFuel
  | fuel + 1 => do
    let element ← parseExpression fuel
    let t ← peekM
    if isSynTok t .COMMA then do
      let _ ← assertTokenM "SyntaxToken::COMMA" "Expected comma between elements in short data notation."
      let rest ← shortArrayLoop fuel
      pure (element :: rest)
    else pure [element]

def parseAdditiveExpr : Nat → PM Expr
  | 0 => pfail .outOfFuel
  | fuel + 1 => do
    let left ← parseMultiplicativeExpr fuel
    parseAdditiveLoop fuel left

def parseAdditiveLoop : Nat → Expr → PM Expr
  | 0, _ => pfail .outOfFuel
  | fuel + 1, left => do
    let t ← peekM
    if t.tag == .OPERATOR &&
        (t.operatorTok? == some .ADDITION || t.operatorTok? == some .SUBTRACTION) then do
      let operator_ ← advanceM
      let right ← parseMultiplicativeExpr fuel
      parseAdditiveLoop fuel (.binaryExpr left right operator_)
    else pure left

def parseMultiplicativeExpr : Nat → PM Expr
  | 0 => pfail .outOfFuel
  | fuel + 1 => do
    let left ← parsePowerExpr fuel
    parseMultiplicativeLoop fuel left

def parseMultiplicativeLoop : Nat → Expr → PM Expr
  | 0, _ => pfail .outOfFuel
  | fuel + 1, left => do
    let t ← peekM
    if t.tag == .OPERATOR &&
        (t.operatorTok? == some .MULTIPLICATION || t.operatorTok? == some .DIVISION ||
         t.operatorTok? == some .MODULUS) then do
      let operator_ ← advanceM
      let right ← parsePowerExpr fuel
      parseMultiplicativeLoop fuel (.binaryExpr left right operator_)
    else pure left

def parsePowerExpr : Nat → PM Expr
  | 0 => pfail .outOfFuel
  | fuel + 1 => do
    let left ← parseCallMemberExpr fuel
    parsePowerLoop fuel left

def parsePowerLoop : Nat → Expr → PM Expr
  | 0, _ => pfail .outOfFuel
  | fuel + 1, left => do
    let t ← peekM
    if t.tag == .OPERATOR && t.operatorTok? == some .POTENTIATION then do
      let operator_ ← assertTokenM "OperatorToken::POTENTIATION" "Expected \x27**\x27 for power operator"
      let right ← parseCallMemberExpr fuel
      parsePowerLoop fuel (.binaryExpr left right operator_)
    else pure left

def parseCallMemberExpr : Nat → PM Expr
  | 0 => pfail .outOfFuel
  | fuel + 1 => do
    let expression ← parseMemberExpr fuel
    let t ← peekM
    if isSynTok t .OPEN_PARENTHESIS then
      parseCallExpr fuel Expr.nullExpr expression
    else if t.tag == .OPERATOR &&
        (t.operatorTok? == some .INCREMENT || t.operatorTok? == some .DECREMENT) then do
      let operatorToken ← advanceM
      pure (.unaryExpr operatorToken expression false)
    else pure expression

def parseCallExpr : Nat → Expr → Expr → PM Expr
  | 0, _, _ => pfail .outOfFuel
  | fuel + 1, caller, method => do
    let args ← parseArgs fuel
    let callExpr := Expr.callExpr caller method args
    let t ← peekM
    if isSynTok t .DOT then do
      let _ ← assertTokenM "SyntaxToken::DOT" "Expected dot operator following method call"
      let followingMethod ← parsePrimaryExpr fuel
      parseCallExpr fuel callExpr followingMethod
    else if isSynTok t .PIPE_OPERATOR then do
      let _ ← assertTokenM "SyntaxToken::PIPE_OPERATOR" "Expected pipe operator following method call"
      let followingMethod ← parsePrimaryExpr fuel
      parseShortExpr fuel callExpr followingMethod
    else pure callExpr

def parseShortExpr : Nat → Expr → Expr → PM Expr
  | 0, _, _ => pfail .outOfFuel
  | fuel + 1, caller, method => do
    let args ← parseShortArgs fuel
    let callExpr := Expr.callExpr caller method args
    let t ← peekM
    if isSynTok t .DOT then do
      let _ ← assertTokenM "SyntaxToken::DOT" "Expected dot operator following method call"
      let followingMethod ← parsePrimaryExpr fuel
      parseCallExpr fuel callExpr followingMethod
    else if isSynTok t .PIPE_OPERATOR then do
      let _ ← assertTokenM "SyntaxToken::PIPE_OPERATOR" "Expected pipe operator following method call"
      let followingMethod ← parsePrimaryExpr fuel
      parseShortExpr fuel callExpr followingMethod
    else pure callExpr

def parseArgs : Nat → PM (List Expr)
  | 0 => pfail .outOfFuel
  | fuel + 1 => do
    let _ ← assertTokenM "SyntaxToken::OPEN_PARENTHESIS" "Expected open parenthesis"
    let t ← peekM
    let args ←
      if !(isSynTok t .CLOSE_PARENTHESIS) then parseArgumentsList fuel
      else pure []
    let _ ← assertTokenM "SyntaxToken::CLOSE_PARENTHESIS" "Missing closing parenthesis inside arguments list"
    pure args

def parseShortArgs : Nat → PM (List Expr)
  | 0 => pfail .outOfFuel
  | fuel + 1 => do
    let _ ← assertTokenM "SyntaxToken::OPEN_PARENTHESIS" "Expected open parenthesis"
    let args ← shortArgsLoop fuel false
    let _ ← assertTokenM "SyntaxToken::CLOSE_PARENTHESIS" "Missing closing parenthesis inside arguments list"
    pure args

/-- Loop of `parseShortArgs`.  The C++ reads `peek().type.syntaxToken` and
`peek().type.operatorToken` through the union even when the tag is not
SYNTAX/OPERATOR; the embedding's partial accessors return `none` for a
mismatched tag, so a non-syntax token never equals `some CLOSE_PARENTHESIS`
and a logical token never equals `some INCREMENT`/`some DECREMENT`, which
matches the guarded intent of the source conditions. -/
def shortArgsLoop : Nat → Bool → PM (List Expr)
  | 0, _ => pfail .outOfFuel
  | fuel + 1, nonempty => do
    let t ← peekM
    if t.tag != .SYNTAX_TAG && t.syntaxTok? != some .CLOSE_PARENTHESIS then do
      let _ ←
        if nonempty then assertTokenM "SyntaxToken::COMMA" "Expected comma between arguments"
        else pure t
      let arg ←
        if (t.tag == .LOGICAL &&
              !(t.logicalTok? == some .AND || t.logicalTok? == some .OR)) ||
           (t.tag == .OPERATOR &&
              !(t.operatorTok? == some .ASSIGN ||
                t.operatorTok? == some .ADDITION_ASSIGNMENT ||
                t.operatorTok? == some .SUBTRACTION_ASSIGNMENT ||
                t.operatorTok? == some .MULTIPLICATION_ASSIGNMENT ||
                t.operatorTok? == some .DIVISION_ASSIGNMENT ||
                t.operatorTok? == some .MODULUS_ASSIGNMENT ||
                t.operatorTok? == some .POTENTIATION_ASSIGNMENT)) then
        if t.operatorTok? == some .INCREMENT then do
          let adv ← advanceM
          pure (Expr.shortOperationExpr
            { tag := .OPERATOR, typ := .operator_ .ADDITION, size := 1, pos := adv.pos,
              value := "+", plainText := "OperatorToken::ADDITION",
              desc := "Parsed Increment Operator" }
            (.integerLiteral 1))
        else if t.operatorTok? == some .DECREMENT then do
          let adv ← advanceM
          pure (Expr.shortOperationExpr
            { tag := .OPERATOR, typ := .operator_ .SUBTRACTION, size := 1, pos := adv.pos,
              value := "-", plainText := "OperatorToken::SUBTRACTION",
              desc := "Parsed Decrement Operator" }
            (.integerLiteral 1))
        else do
          let op ← advanceM
          let e ← parseExpression fuel
          pure (Expr.shortOperationExpr op e)
      else parseExpression fuel
      let rest ← shortArgsLoop fuel true
      pure (arg :: rest)
    else pure []

def parseArgumentsList : Nat → PM (List Expr)
  | 0 => pfail .outOfFuel
  | fuel + 1 => do
    let first ← parseAssignmentExpr fuel
    let rest ← argsListLoop fuel
    pure (first :: rest)

def argsListLoop : Nat → PM (List Expr)
  | 0 => pfail .outOfFuel
  | fuel + 1 => do
    let t ← peekM
    if isSynTok t .COMMA then do
      let _ ← assertTokenM "SyntaxToken::COMMA" "Expected comma between arguments"
      let arg ← parseAssignmentExpr fuel
      let rest ← argsListLoop fuel
      pure (arg :: rest)
    else pure []

def parseMemberExpr : Nat → PM Expr
  | 0 => pfail .outOfFuel
  | fuel + 1 => do
    let object ← parsePrimaryExpr fuel
    parseMemberLoop fuel object

def parseMemberLoop : Nat → Expr → PM Expr
  | 0, _ => pfail .outOfFuel
  | fuel + 1, object => do
    let t ← peekM
    if isSynTok t .DOT || isSynTok t .OPEN_BRACKET || isSynTok t .PIPE_OPERATOR then do
      let token ← advanceM
      if token.syntaxTok? == some .DOT then do
        let property ← parsePrimaryExpr fuel
        match property.kindOf with
        | none => pfail .undefinedBehavior
        | some k =>
          if k != .Identifier then
            pfail (.invalidArgument "Cannot use dot operator without right-hand side being an identifier.")
          else do
            let t2 ← peekM
            if isSynTok t2 .OPEN_PARENTHESIS then do
              let object2 ← parseCallExpr fuel object property
              parseMemberLoop fuel object2
            else
              parseMemberLoop fuel (.memberExpr object property false)
      else if token.syntaxTok? == some .OPEN_BRACKET then do
        let property ← parseExpression fuel
        let _ ← assertTokenM "SyntaxToken::CLOSE_BRACKET" "Missing closing bracket in computed value."
        parseMemberLoop fuel (.memberExpr object property true)
      else do
        let t2 ← peekM
        if t2.tag != .SHORT_NOTATION_TAG then
          pfail (.invalidArgument "Expected Short Notation following pipe operator.")
        else do
          let property ← parsePrimaryExpr fuel
          let object2 ← parseShortExpr fuel object property
          parseMemberLoop fuel object2
    else pure object

def parsePrimaryExpr : Nat → PM Expr
  | 0 => pfail .outOfFuel
  | fuel + 1 => do
    let token ← peekM
    if token.tag == .DATA then
      match token.dataTok? with
      | some .INTEGER_LITERAL => do
        let token ← assertTokenM "DataToken::INTEGER_LITERAL" "Expected integer literal"
        pure (.integerLiteral (stoi token.value))
      | some .DOUBLE_LITERAL => do
        let token ← assertTokenM "DataToken::DOUBLE_LITERAL" "Expected double literal"
        pure (.doubleLiteral token.value)
      | some .BOOLEAN_LITERAL =>
        if !(boolMatch token.value) then
          pfail (.invalidArgument ("Invalid boolean literal: " ++ token.value))
        else do
          let token ← assertTokenM "DataToken::BOOLEAN_LITERAL" "Expected boolean literal"
          pure (.booleanLiteral (token.value == "true"))
      | some .NULL_LITERAL => do
        let _ ← assertTokenM "DataToken::NULL_LITERAL" "Expected null literal"
        pure .nullLiteral
      | some .IDENTIFIER => do
        let token ← assertTokenM "DataToken::IDENTIFIER" "Expected identifier"
        pure (.identifier token)
      | _ =>
        pfail (.logicError ("Unexpected token \"" ++ token.plainText ++ "\" found in primary expression."))
    else if token.tag == .SYNTAX_TAG then
      match token.syntaxTok? with
      | some .OPEN_BRACKET => parseArrayExpr fuel
      | some .OPEN_BRACE => parseObjectExpr fuel
      | some .AT => parseShortData fuel
      | some .OPEN_PARENTHESIS => do
        let _ ← assertTokenM "SyntaxToken::OPEN_PARENTHESIS" "Expected \x27(\x27 to start parenthesised expression."
        let i ← scanParenLoop fuel 0 0
        let tNext ← lookAheadM (i + 1)
        if isSynTok tNext .CALLBACK then
          parseCallbackFunctionExpr fuel
        else do
          let expression ← parseExpression fuel
          let _ ← assertTokenM "SyntaxToken::CLOSE_PARENTHESIS"
            "Unexpected token found inside parenthesised expression. Expected closing parenthesis."
          pure expression
      | some .DOUBLE_QUOTE => do
        let _ ← assertTokenM "SyntaxToken::DOUBLE_QUOTE" "Expected opening double quote"
        let v ← assertTokenM "DataToken::STRING_LITERAL" "Expected string literal"
        let _ ← assertTokenM "SyntaxToken::DOUBLE_QUOTE" "Expected closing double quote"
        pure (.stringLiteral v.value)
      | some .SINGLE_QUOTE => do
        let _ ← assertTokenM "SyntaxToken::SINGLE_QUOTE" "Expected opening single quote"
        let v ← assertTokenM "DataToken::CHAR_LITERAL" "Expected character literal"
        let _ ← assertTokenM "SyntaxToken::SINGLE_QUOTE" "Expected closing single quote"
        pure (.charLiteral (v.value.toList.headD (Char.ofNat 0)))
      | some .HASHTAG => do
        let _ ← assertTokenM "SyntaxToken::HASHTAG" "Expected hashtag to start hex code literal"
        let v ← assertTokenM "DataToken::HEX_CODE_LITERAL" "Expected hex code literal"
        pure (.hexCodeLiteral ("#" ++ v.value))
      | some .INLINE_COMMENT => do
        skipCommentM
        pure .nullExpr
      | _ =>
        pfail (.logicError ("Unexpected token \"" ++ token.plainText ++ "\" found in primary expression."))
    else if token.tag == .OPERATOR then
      match token.operatorTok? with
      | some .SUBTRACTION => do
        let _ ← advanceM
        let nextToken ← peekM
        if isDataTok nextToken .INTEGER_LITERAL then do
          let v ← advanceM
          pure (.integerLiteral (-(stoi v.value)))
        else if isDataTok nextToken .DOUBLE_LITERAL then do
          let v ← advanceM
          pure (.doubleLiteral ("-" ++ v.value))
        else do
          let v ← advanceM
          pfail (.invalidArgument ("Unexpected token found after \x27-\x27 operator: " ++ v.plainText))
      | some .INCREMENT | some .DECREMENT => do
        let token ← advanceM
        let operand ← parsePrimaryExpr fuel
        pure (.unaryExpr token operand true)
      | _ =>
        pfail (.logicError ("Unexpected token \"" ++ token.plainText ++ "\" found in primary expression."))
    else if token.tag == .LOGICAL then
      match token.logicalTok? with
      | some .NOT => do
        let token ← advanceM
        let operand ← parseExpression fuel
        pure (.unaryExpr token operand true)
      | _ =>
        pfail (.logicError ("Unexpected token \"" ++ token.plainText ++ "\" found in primary expression."))
    else if token.tag == .SHORT_NOTATION_TAG then do
      let adv ← advanceM
      match adv.shortTok? with
      | some s => pure (.identifier { token with value := shortEnumToString s })
      | none => pfail .undefinedBehavior
    else
      pfail (.logicError ("Unexpected token \"" ++ token.plainText ++ "\" found in primary expression."))

/-- Forward scan for the parenthesis matching in `parsePrimaryExpr`
(`while (true) \x7b i++; ... lookAhead(i) ... \x7d`).  The C++ declares
`int i, scope = 0;`, leaving `i` uninitialized (undefined behaviour); the
embedding starts the scan at 0, the evident intent (the first inspected
token is `lookAhead(1)`, the token right after the consumed open
parenthesis).  The scan only inspects, never consumes; it exits through
the `lookAhead` failure when no matching close parenthesis remains. -/
def scanParenLoop : Nat → Nat → Nat → PM Nat
  | 0, _, _ => pfail .outOfFuel
  | fuel + 1, i, scope => do
    let t ← lookAheadM (i + 1)
    if isSynTok t .OPEN_PARENTHESIS then
      scanParenLoop fuel (i + 1) (scope + 1)
    else if isSynTok t .CLOSE_PARENTHESIS then
      if scope == 0 then pure (i + 1)
      else scanParenLoop fuel (i + 1) (scope - 1)
    else scanParenLoop fuel (i + 1) scope

end

/-- `Parser::parse(devMode)`: validates the INIT marker, then builds the
program tree.  The `devMode` debug printing is I/O only and not modelled. -/
def parse (fuel : Nat) : PM Stmt := do
  let _ ← assertTokenM "BasicToken::INIT" "Expected INIT token at the beginning of the token stream."
  buildAST fuel

def parseRun (fuel : Nat) (ts : List Token) : Except PError (Stmt × List Token) :=
  runP (parse fuel) ts

def parseExpressionRun (fuel : Nat) (ts : List Token) : Except PError (Expr × List Token) :=
  runP (parseExpression fuel) ts

def parseVarDeclarationRun (fuel : Nat) (ts : List Token) : Except PError (Stmt × List Token) :=
  runP (parseVarDeclaration fuel) ts

def parseLogStatementRun (fuel : Nat) (ts : List Token) : Except PError (Stmt × List Token) :=
  runP (parseLogStatement fuel) ts

def parseLogMessagesRun (fuel : Nat) (ts : List Token) : Except PError (List Expr × List Token) :=
  runP (parseLogMessages fuel) ts

/-- Specification-side driver loop for claim C8, following the spec's words
(spec §4.4): repeatedly "parse one top-level statement, optionally skip a
terminator" until the end-of-stream marker is the front token, recording
each statement parse's result in source order, where a comment-only
statement yields no node (`none`).  It reuses the source-translated
`parseStatement`; the claim theorem shows `parse` builds its Program body
exactly from the non-null results of this loop. -/
def driverSpecLoop : Nat → PM (List (Option Stmt))
  | 0 => pfail .outOfFuel
  | fuel + 1 => do
    let e ← isEOFM
    if e then pure []
    else do
      let st ← parseStatement fuel
      let _ ← skipSemicolonM
      let rest ← driverSpecLoop fuel
      pure ((match st with | .nullStmt => none | s => some s) :: rest)

/-! ### Run-level reduction lemmas -/

theorem runP_bind (x : PM α) (f : α → PM β) (ts : List Token) :
    runP (x >>= f) ts =
      match runP x ts with
      | .error e => .error e
      | .ok (a, ts1) => runP (f a) ts1 := by
  show runP (PM.bind x f) ts = _
  unfold PM.bind runP
  cases h : x ts with
  | error e => simp [h]
  | ok p =>
    obtain ⟨a, ts1, h1⟩ := p
    cases h2 : f a ts1 with
    | error e => simp [h, h2]
    | ok q =>
      obtain ⟨b, ts2, hh⟩ := q
      simp [h, h2]

theorem runP_pure (a : α) (ts : List Token) :
    runP (pure (f := PM) a) ts = .ok (a, ts) := rfl

theorem runP_pfail (e : PError) (ts : List Token) :
    runP (pfail (α := α) e) ts = .error e := rfl

theorem runP_liftEx (x : Except PError α) (ts : List Token) :
    runP (liftEx x) ts = x.map (fun a => (a, ts)) := by
  cases x <;> rfl

theorem runP_advanceM (ts : List Token) :
    runP advanceM ts =
      match ts with
      | [] => .error .undefinedBehavior
      | t :: rest => .ok (t, rest) := by
  cases ts <;> rfl

theorem runP_peekM (ts : List Token) :
    runP peekM ts =
      match ts with
      | [] => .error .undefinedBehavior
      | t :: rest => .ok (t, t :: rest) := by
  cases ts with
  | nil => rfl
  | cons t rest =>
    have hlen : ¬((t :: rest).length < 1) := by simp
    simp [runP, peekM, peekFn, hlen]

theorem runP_assertTokenM (e m : String) (ts : List Token) :
    runP (assertTokenM e m) ts =
      match ts with
      | [] => .error .undefinedBehavior
      | t :: rest =>
        if t.plainText = e then .ok (t, rest)
        else .error (.invalidArgument ("Unexpected token found: " ++ t.plainText ++ "\n" ++ m)) := by
  cases ts with
  | nil => rfl
  | cons t rest =>
    by_cases hp : t.plainText = e <;>
      simp [runP, assertTokenM, assertTokenFn, hp]

theorem runP_ite (b : Bool) (x y : PM α) (ts : List Token) :
    runP (if b then x else y) ts = if b then runP x ts else runP y ts := by
  cases b <;> rfl

/-! ### Claim theorems -/

/-- C4: for every non-empty remaining token vector and offset `steps ≥ 1`
strictly greater than the number of remaining tokens, `peek(steps)` returns
the last token of the vector without failing while `lookAhead(steps)`
raises the out-of-range failure; for `steps` within bounds both return the
token at index `steps - 1`; and neither (run monadically) consumes any
token. -/
theorem peek_clamps_lookAhead_fails (ts : List Token) (steps : Nat)
    (hne : ts ≠ []) (hsteps : 1 ≤ steps) :
    (ts.length < steps →
      peekFn ts steps = ts.getLast? ∧ ts.getLast?.isSome = true ∧
      lookAheadFn ts steps = .error (.runtimeError "Unexpected end of file")) ∧
    (steps ≤ ts.length →
      ∃ t, ts[steps - 1]? = some t ∧ peekFn ts steps = some t ∧
        lookAheadFn ts steps = .ok t) ∧
    (∀ r ts', runP (lookAheadM steps) ts = .ok (r, ts') → ts' = ts) ∧
    (∀ r ts', runP peekM ts = .ok (r, ts') → ts' = ts) := by
  refine ⟨?_, ?_, ?_, ?_⟩
  · intro hover
    refine ⟨?_, List.getLast?_isSome.mpr hne, ?_⟩
    · unfold peekFn
      rw [if_pos hover]
    · unfold lookAheadFn
      rw [if_pos hover]
  · intro hle
    have hidx : steps - 1 < ts.length := by omega
    refine ⟨ts[steps - 1], List.getElem?_eq_getElem hidx, ?_, ?_⟩
    · unfold peekFn
      rw [if_neg (by omega)]
      exact List.getElem?_eq_getElem hidx
    · unfold lookAheadFn
      rw [if_neg (by omega), List.getElem?_eq_getElem hidx]
  · intro r ts' h
    unfold runP lookAheadM at h
    rcases hl : lookAheadFn ts steps with e | t <;> rw [hl] at h <;> simp at h
    exact h.2.symm
  · intro r ts' h
    unfold runP peekM at h
    rcases hp : peekFn ts 1 with _ | t <;> rw [hp] at h <;> simp at h
    exact h.2.symm

/-- Witness for C4 at a concrete vector: overrun (`steps = 3` on two
tokens) clamps `peek` to the last token and makes `lookAhead` fail, the
in-bounds case returns the front token for both. -/
theorem peek_clamps_lookAhead_fails_witness :
    (peekFn [initTok, eofTok] 3 = some eofTok ∧
      lookAheadFn [initTok, eofTok] 3 = .error (.runtimeError "Unexpected end of file")) ∧
    (peekFn [initTok, eofTok] 1 = some initTok ∧
      lookAheadFn [initTok, eofTok] 1 = .ok initTok) := by
  have hover := (peek_clamps_lookAhead_fails [initTok, eofTok] 3 (by decide) (by decide)).1
    (by decide)
  have hin := ((peek_clamps_lookAhead_fails [initTok, eofTok] 1 (by decide) (by decide)).2).1
    (by decide)
  obtain ⟨t, ht, hpeek, hlook⟩ := hin
  refine ⟨⟨?_, hover.2.2⟩, ?_, ?_⟩
  · rw [hover.1]; rfl
  · rw [hpeek, show t = initTok from by cases ht; rfl]
  · rw [hlook, show t = initTok from by cases ht; rfl]

/-- C10: `assertToken(expected, message)` removes exactly the front token
from the stream regardless of whether that token's canonical `plainText`
equals `expected`; on a mismatch it raises the invalid-argument failure
with the offending token already consumed (the cursor is not restored). -/
theorem assertToken_always_consumes_front (e m : String) (t : Token) (rest : List Token) :
    (assertTokenFn e m (t :: rest)).2 = rest ∧
    (t.plainText = e → (assertTokenFn e m (t :: rest)).1 = .ok t) ∧
    (t.plainText ≠ e → (assertTokenFn e m (t :: rest)).1 =
      .error (.invalidArgument ("Unexpected token found: " ++ t.plainText ++ "\n" ++ m))) := by
  refine ⟨rfl, ?_, ?_⟩ <;> intro h <;> simp [assertTokenFn, h]

/-- Witness for C10 at a concrete mismatch: expecting `INIT` while the
front token is the EOF marker consumes that token and fails. -/
theorem assertToken_always_consumes_front_witness :
    (assertTokenFn "BasicToken::INIT" "m" [eofTok, initTok]).2 = [initTok] ∧
    (assertTokenFn "BasicToken::INIT" "m" [eofTok, initTok]).1 =
      .error (.invalidArgument "Unexpected token found: BasicToken::TOKEN_EOF\nm") :=
  ⟨(assertToken_always_consumes_front "BasicToken::INIT" "m" eofTok [initTok]).1,
   (assertToken_always_consumes_front "BasicToken::INIT" "m" eofTok [initTok]).2.2
     (by decide)⟩

/-- C5: for the token sequence `1 + 2 * 3`, expression parsing returns a
BinaryExpr with the addition token whose left child is IntegerLiteral 1 and
whose right child is the multiplication BinaryExpr over 2 and 3. -/
theorem additive_multiplicative_precedence :
    parseExpressionRun 100 [intTok "1", mkOpTok .ADDITION, intTok "2",
      mkOpTok .MULTIPLICATION, intTok "3", eofTok] =
    .ok (.binaryExpr (.integerLiteral 1)
          (.binaryExpr (.integerLiteral 2) (.integerLiteral 3) (mkOpTok .MULTIPLICATION))
          (mkOpTok .ADDITION), [eofTok]) := by rfl

/-- C6: for the token sequence `{ x, y: 1 }` in expression position,
parsing returns an ObjectLiteral with exactly two Property entries in
source order, the first with key `x` and a null value, the second with key
`y` and IntegerLiteral value 1. -/
theorem object_literal_shorthand :
    parseExpressionRun 100 [mkSynTok .OPEN_BRACE, identTok "x", mkSynTok .COMMA,
      identTok "y", mkSynTok .COLON, intTok "1", mkSynTok .CLOSE_BRACE, eofTok] =
    .ok (.objectLiteral [Property.mk (identTok "x") .nullExpr,
          Property.mk (identTok "y") (.integerLiteral 1)], [eofTok]) := by rfl

/-- C1 counterexample: for the token sequence `a.b(1).c[2]++`, expression
parsing does NOT succeed (so it cannot return the claimed postfix
UnaryExpr / MemberExpr / CallExpr chain): the parse fails. -/
theorem member_call_chain_claim_false :
    (parseExpressionRun 100 [identTok "a", mkSynTok .DOT, identTok "b",
      mkSynTok .OPEN_PARENTHESIS, intTok "1", mkSynTok .CLOSE_PARENTHESIS,
      mkSynTok .DOT, identTok "c", mkSynTok .OPEN_BRACKET, intTok "2",
      mkSynTok .CLOSE_BRACKET, mkOpTok .INCREMENT, eofTok]).isOk = false := by rfl

/-- C1 amended: for the token sequence `a.b(1).c[2]++`, expression parsing
raises an invalid-argument grammar failure: after the call `a.b(1)`,
`parseCallExpr` treats the dotted continuation `.c` as a further method
call and demands an argument list, so the open bracket trips the
`assertToken("SyntaxToken::OPEN_PARENTHESIS", "Expected open parenthesis")`
inside `parseArgs`. -/
theorem member_call_chain_raises :
    parseExpressionRun 100 [identTok "a", mkSynTok .DOT, identTok "b",
      mkSynTok .OPEN_PARENTHESIS, intTok "1", mkSynTok .CLOSE_PARENTHESIS,
      mkSynTok .DOT, identTok "c", mkSynTok .OPEN_BRACKET, intTok "2",
      mkSynTok .CLOSE_BRACKET, mkOpTok .INCREMENT, eofTok] =
    .error (.invalidArgument
      "Unexpected token found: SyntaxToken::OPEN_BRACKET\nExpected open parenthesis") := by rfl

/-- C2 counterexample: for the token stream of `const x;`,
`parseVarDeclaration` does not raise any failure: it returns a
VarDeclaration whose single binding has a null initializer, leaving the
semicolon unconsumed. -/
theorem const_without_initializer_accepted :
    parseVarDeclarationRun 100 [mkKwTok .CONSTANT, identTok "x", mkSynTok .SEMICOLON, eofTok] =
    .ok (.varDeclaration (mkKwTok .CONSTANT) [(identTok "x", .nullExpr)],
         [mkSynTok .SEMICOLON, eofTok]) := by rfl

/-- C2 amended: `parseVarDeclaration` never checks the qualifier: for every
qualifier token and every declared identifier followed by a token that is
neither the assignment operator nor a comma, it succeeds with a null
initializer for that binding (so `const x;` parses, no grammar
violation). -/
theorem var_declaration_missing_init_accepted (fuel : Nat) (q : Token) (i : String)
    (u : Token) (rest : List Token)
    (h1 : isOpTok u .ASSIGN = false) (h2 : isSynTok u .COMMA = false) :
    parseVarDeclarationRun (fuel + 2) (q :: identTok i :: u :: rest) =
      .ok (.varDeclaration q [(identTok i, .nullExpr)], u :: rest) := by
  unfold parseVarDeclarationRun
  simp [parseVarDeclaration, parseVarDeclLoop, runP_bind, runP_advanceM,
    runP_assertTokenM, runP_peekM, runP_pure, runP_ite, h1, h2, identTok, mkDataTok,
    dataPlain]

/-- Witness for C2's amended theorem at the stream of `const x;`. -/
theorem var_declaration_missing_init_accepted_witness :
    parseVarDeclarationRun 100 [mkKwTok .CONSTANT, identTok "x", mkSynTok .SEMICOLON, eofTok] =
      .ok (.varDeclaration (mkKwTok .CONSTANT) [(identTok "x", .nullExpr)],
           [mkSynTok .SEMICOLON, eofTok]) :=
  var_declaration_missing_init_accepted 98 (mkKwTok .CONSTANT) "x"
    (mkSynTok .SEMICOLON) [eofTok] (by decide) (by decide)

/-- Any successful parsing step leaves a suffix of its input stream (the
C++ parser only erases tokens from the front of its vector). -/
theorem runP_ok_suffix (x : PM α) {ts ts' : List Token} {a : α}
    (h : runP x ts = .ok (a, ts')) : ts'.IsSuffix ts := by
  unfold runP at h
  rcases hx : x ts with e | ⟨b, ⟨ts2, hs⟩⟩ <;> rw [hx] at h <;> simp at h
  exact h.2 ▸ hs

/-- C3: when `parseLogStatement` consumes a log token of the colored
subkind, after parsing the parenthesized comma-separated argument list it
succeeds exactly when the last argument is a HexCodeLiteral node: a last
argument of any other node kind raises the invalid-input failure
(regardless of what follows), and with a HexCodeLiteral last argument the
parse succeeds, removing that literal from the message list and storing it
in the LogStmt's color field (behind the closing parenthesis, an optional
terminator is skipped). -/
theorem logc_requires_trailing_hex (fuel : Nat) (rest ts2 : List Token)
    (msgs : List Expr) (colorExpr : Expr)
    (hmsgs : parseLogMessagesRun fuel rest = .ok (msgs, ts2))
    (hlast : msgs.getLast? = some colorExpr) :
    (∀ k, colorExpr.kindOf = some k → k ≠ NodeType.HexCodeLiteral →
      parseLogStatementRun (fuel + 1)
          (mkLogTok .COLORED :: mkSynTok .OPEN_PARENTHESIS :: rest) =
        .error (.invalidArgument "Expected hex code literal as last argument for a colored log.")) ∧
    (colorExpr.kindOf = some NodeType.HexCodeLiteral →
      (∀ v rest3, ts2 = mkSynTok .CLOSE_PARENTHESIS :: v :: rest3 →
        isSynTok v .SEMICOLON = false →
        parseLogStatementRun (fuel + 1)
            (mkLogTok .COLORED :: mkSynTok .OPEN_PARENTHESIS :: rest) =
          .ok (.logStmt (mkLogTok .COLORED) msgs.dropLast colorExpr, v :: rest3)) ∧
      (∀ rest3, ts2 = mkSynTok .CLOSE_PARENTHESIS :: mkSynTok .SEMICOLON :: rest3 →
        parseLogStatementRun (fuel + 1)
            (mkLogTok .COLORED :: mkSynTok .OPEN_PARENTHESIS :: rest) =
          .ok (.logStmt (mkLogTok .COLORED) msgs.dropLast colorExpr, rest3))) := by
  unfold parseLogMessagesRun at hmsgs
  refine ⟨?_, fun hk => ⟨?_, ?_⟩⟩
  · intro k hk hkne
    unfold parseLogStatementRun
    simp [parseLogStatement, runP_bind, runP_advanceM, runP_assertTokenM,
      mkLogTok, logPlain, mkSynTok, syntaxPlain, Token.logTok?, hmsgs, hlast,
      hk, hkne, runP_pfail, runP_pure]
  · intro v rest3 hts2 hv
    subst hts2
    unfold parseLogStatementRun
    simp [parseLogStatement, runP_bind, runP_advanceM, runP_assertTokenM,
      mkLogTok, logPlain, mkSynTok, syntaxPlain, Token.logTok?, hmsgs, hlast,
      hk, runP_pfail, runP_pure, skipSemicolonM, runP_peekM, runP_ite, hv]
  · intro rest3 hts2
    subst hts2
    unfold parseLogStatementRun
    simp [parseLogStatement, runP_bind, runP_advanceM, runP_assertTokenM,
      mkLogTok, logPlain, mkSynTok, syntaxPlain, Token.logTok?, hmsgs, hlast,
      hk, runP_pfail, runP_pure, skipSemicolonM, runP_peekM, runP_ite,
      isSynTok, Token.syntaxTok?]

/-- Witness for C3 at the two concrete programs: `logc("msg", 1);` fails
because the last argument is an IntegerLiteral, and `logc("msg", #fff);`
succeeds with the HexCodeLiteral split off into the color field and one
remaining message expression. -/
theorem logc_requires_trailing_hex_witness :
    parseLogStatementRun 100 [mkLogTok .COLORED, mkSynTok .OPEN_PARENTHESIS,
      mkSynTok .DOUBLE_QUOTE, mkDataTok .STRING_LITERAL "msg", mkSynTok .DOUBLE_QUOTE,
      mkSynTok .COMMA, intTok "1",
      mkSynTok .CLOSE_PARENTHESIS, mkSynTok .SEMICOLON, eofTok] =
    .error (.invalidArgument "Expected hex code literal as last argument for a colored log.") ∧
    parseLogStatementRun 100 [mkLogTok .COLORED, mkSynTok .OPEN_PARENTHESIS,
      mkSynTok .DOUBLE_QUOTE, mkDataTok .STRING_LITERAL "msg", mkSynTok .DOUBLE_QUOTE,
      mkSynTok .COMMA, mkSynTok .HASHTAG, mkDataTok .HEX_CODE_LITERAL "fff",
      mkSynTok .CLOSE_PARENTHESIS, mkSynTok .SEMICOLON, eofTok] =
    .ok (.logStmt (mkLogTok .COLORED) [.stringLiteral "msg"] (.hexCodeLiteral "#fff"),
         [eofTok]) :=
  ⟨(logc_requires_trailing_hex 99
      [mkSynTok .DOUBLE_QUOTE, mkDataTok .STRING_LITERAL "msg", mkSynTok .DOUBLE_QUOTE,
       mkSynTok .COMMA, intTok "1",
       mkSynTok .CLOSE_PARENTHESIS, mkSynTok .SEMICOLON, eofTok]
      [mkSynTok .CLOSE_PARENTHESIS, mkSynTok .SEMICOLON, eofTok]
      [.stringLiteral "msg", .integerLiteral 1] (.integerLiteral 1)
      (by rfl) (by rfl)).1 .IntegerLiteral (by rfl) (by decide),
   ((logc_requires_trailing_hex 99
      [mkSynTok .DOUBLE_QUOTE, mkDataTok .STRING_LITERAL "msg", mkSynTok .DOUBLE_QUOTE,
       mkSynTok .COMMA, mkSynTok .HASHTAG, mkDataTok .HEX_CODE_LITERAL "fff",
       mkSynTok .CLOSE_PARENTHESIS, mkSynTok .SEMICOLON, eofTok]
      [mkSynTok .CLOSE_PARENTHESIS, mkSynTok .SEMICOLON, eofTok]
      [.stringLiteral "msg", .hexCodeLiteral "#fff"] (.hexCodeLiteral "#fff")
      (by rfl) (by rfl)).2 (by rfl)).2 [eofTok] (by rfl)⟩

/-- C7: at every binary precedence level (logical, equality, relational,
additive, multiplicative, power), three integer-literal operands joined by
two operator tokens of that same level parse to a left-nested tree, the
top BinaryExpr's left child being the BinaryExpr over the first two
operands; in particular `2 ** 3 ** 2` parses as `(2 ** 3) ** 2`. -/
theorem binary_operators_left_associative :
    (∀ (v1 v2 v3 : String) (op1 op2 : Token),
      op1 ∈ [mkLogicalTok .AND, mkLogicalTok .OR] →
      op2 ∈ [mkLogicalTok .AND, mkLogicalTok .OR] →
      parseExpressionRun 100 [intTok v1, op1, intTok v2, op2, intTok v3, eofTok] =
        .ok (.binaryExpr
              (.binaryExpr (.integerLiteral (stoi v1)) (.integerLiteral (stoi v2)) op1)
              (.integerLiteral (stoi v3)) op2, [eofTok])) ∧
    (∀ (v1 v2 v3 : String) (op1 op2 : Token),
      op1 ∈ [mkLogicalTok .EQUAL, mkLogicalTok .NOT_EQUAL] →
      op2 ∈ [mkLogicalTok .EQUAL, mkLogicalTok .NOT_EQUAL] →
      parseExpressionRun 100 [intTok v1, op1, intTok v2, op2, intTok v3, eofTok] =
        .ok (.binaryExpr
              (.binaryExpr (.integerLiteral (stoi v1)) (.integerLiteral (stoi v2)) op1)
              (.integerLiteral (stoi v3)) op2, [eofTok])) ∧
    (∀ (v1 v2 v3 : String) (op1 op2 : Token),
      op1 ∈ [mkLogicalTok .LESS, mkLogicalTok .GREATER,
             mkLogicalTok .LESS_EQUAL, mkLogicalTok .GREATER_EQUAL] →
      op2 ∈ [mkLogicalTok .LESS, mkLogicalTok .GREATER,
             mkLogicalTok .LESS_EQUAL, mkLogicalTok .GREATER_EQUAL] →
      parseExpressionRun 100 [intTok v1, op1, intTok v2, op2, intTok v3, eofTok] =
        .ok (.binaryExpr
              (.binaryExpr (.integerLiteral (stoi v1)) (.integerLiteral (stoi v2)) op1)
              (.integerLiteral (stoi v3)) op2, [eofTok])) ∧
    (∀ (v1 v2 v3 : String) (op1 op2 : Token),
      op1 ∈ [mkOpTok .ADDITION, mkOpTok .SUBTRACTION] →
      op2 ∈ [mkOpTok .ADDITION, mkOpTok .SUBTRACTION] →
      parseExpressionRun 100 [intTok v1, op1, intTok v2, op2, intTok v3, eofTok] =
        .ok (.binaryExpr
              (.binaryExpr (.integerLiteral (stoi v1)) (.integerLiteral (stoi v2)) op1)
              (.integerLiteral (stoi v3)) op2, [eofTok])) ∧
    (∀ (v1 v2 v3 : String) (op1 op2 : Token),
      op1 ∈ [mkOpTok .MULTIPLICATION, mkOpTok .DIVISION, mkOpTok .MODULUS] →
      op2 ∈ [mkOpTok .MULTIPLICATION, mkOpTok .DIVISION, mkOpTok .MODULUS] →
      parseExpressionRun 100 [intTok v1, op1, intTok v2, op2, intTok v3, eofTok] =
        .ok (.binaryExpr
              (.binaryExpr (.integerLiteral (stoi v1)) (.integerLiteral (stoi v2)) op1)
              (.integerLiteral (stoi v3)) op2, [eofTok])) ∧
    (∀ (v1 v2 v3 : String),
      parseExpressionRun 100 [intTok v1, mkOpTok .POTENTIATION, intTok v2,
          mkOpTok .POTENTIATION, intTok v3, eofTok] =
        .ok (.binaryExpr
              (.binaryExpr (.integerLiteral (stoi v1)) (.integerLiteral (stoi v2))
                (mkOpTok .POTENTIATION))
              (.integerLiteral (stoi v3)) (mkOpTok .POTENTIATION), [eofTok])) ∧
    parseExpressionRun 100 [intTok "2", mkOpTok .POTENTIATION, intTok "3",
        mkOpTok .POTENTIATION, intTok "2", eofTok] =
      .ok (.binaryExpr
            (.binaryExpr (.integerLiteral 2) (.integerLiteral 3) (mkOpTok .POTENTIATION))
            (.integerLiteral 2) (mkOpTok .POTENTIATION), [eofTok]) := by
  refine ⟨?_, ?_, ?_, ?_, ?_, ?_, by rfl⟩ <;>
    intro v1 v2 v3 <;>
    first
      | (intro op1 op2 h1 h2; fin_cases h1 <;> fin_cases h2 <;> rfl)
      | rfl

/-- Witness for C7 at a concrete instance of each level (operands 1, 2, 3;
first operator of the level twice). -/
theorem binary_operators_left_associative_witness :
    parseExpressionRun 100 [intTok "1", mkLogicalTok .AND, intTok "2",
        mkLogicalTok .AND, intTok "3", eofTok] =
      .ok (.binaryExpr
            (.binaryExpr (.integerLiteral 1) (.integerLiteral 2) (mkLogicalTok .AND))
            (.integerLiteral 3) (mkLogicalTok .AND), [eofTok]) ∧
    parseExpressionRun 100 [intTok "1", mkOpTok .ADDITION, intTok "2",
        mkOpTok .ADDITION, intTok "3", eofTok] =
      .ok (.binaryExpr
            (.binaryExpr (.integerLiteral 1) (.integerLiteral 2) (mkOpTok .ADDITION))
            (.integerLiteral 3) (mkOpTok .ADDITION), [eofTok]) :=
  ⟨binary_operators_left_associative.1 "1" "2" "3" _ _ (by decide) (by decide),
   binary_operators_left_associative.2.2.2.1 "1" "2" "3" _ _ (by decide) (by decide)⟩

/-- The source driver loop computes exactly the non-null results of the
spec-side loop, in order. -/
theorem buildASTLoop_eq_driverSpec (fuel : Nat) : ∀ ts : List Token,
    runP (buildASTLoop fuel) ts =
      (runP (driverSpecLoop fuel) ts).map (fun p => (p.1.reduceOption, p.2)) := by
  induction fuel with
  | zero => intro ts; rfl
  | succ fuel ih =>
    intro ts
    simp only [buildASTLoop, driverSpecLoop, runP_bind, isEOFM, runP_peekM, runP_pure]
    cases ts with
    | nil => rfl
    | cons t rest =>
      simp only [runP_pure, runP_ite]
      by_cases he : isEOFTok t
      · simp [he, Except.map]
      · simp only [he, Bool.false_eq_true, if_false, runP_bind]
        cases hps : runP (parseStatement fuel) (t :: rest) with
        | error e => simp [Except.map]
        | ok p =>
          obtain ⟨st, ts1⟩ := p
          cases hss : runP skipSemicolonM ts1 with
          | error e => simp [hss, Except.map]
          | ok q =>
            obtain ⟨u, ts2⟩ := q
            simp only [hss, ih]
            cases hd : runP (driverSpecLoop fuel) ts2 with
            | error e => cases st <;> simp [Except.map]
            | ok r =>
              obtain ⟨opts, ts3⟩ := r
              cases st <;> simp [Except.map, List.reduceOption, runP_pure]

/-- C8: `parse` raises a failure whenever the first token of the stream is
not the INIT marker (its canonical `plainText` differs from
"BasicToken::INIT"); and with INIT present, `parse` returns a Program
whose body contains exactly the non-null statement nodes produced by the
spec-side loop "parse one top-level statement, optionally skip a
terminator, until EOF is the front token", in source order (comment-only
statements yield `none` there and contribute no node). -/
theorem parse_init_gate_and_body :
    (∀ (fuel : Nat) (t : Token) (ts : List Token),
      t.plainText ≠ "BasicToken::INIT" →
      parseRun fuel (t :: ts) = .error (.invalidArgument
        ("Unexpected token found: " ++ t.plainText ++ "\n" ++
         "Expected INIT token at the beginning of the token stream."))) ∧
    (∀ (fuel : Nat) (ts : List Token),
      parseRun (fuel + 1) (initTok :: ts) =
        (runP (driverSpecLoop fuel) ts).map
          (fun p => (Stmt.program p.1.reduceOption, p.2))) := by
  constructor
  · intro fuel t ts h
    unfold parseRun parse
    simp [runP_bind, runP_assertTokenM, h]
  · intro fuel ts
    unfold parseRun parse
    simp only [runP_bind, runP_assertTokenM, initTok, mkBasicTok, basicPlain,
      buildAST, if_true]
    simp only [buildASTLoop_eq_driverSpec fuel ts]
    cases hd : runP (driverSpecLoop fuel) ts with
    | error e => simp [Except.map]
    | ok r =>
      obtain ⟨opts, ts1⟩ := r
      simp [Except.map, runP_pure]

/-- Witness for C8: a stream whose first token is the EOF marker fails the
INIT gate, and `INIT // comment 7 EOF` yields a Program containing only
the expression statement for 7 (the comment contributes no node). -/
theorem parse_init_gate_and_body_witness :
    parseRun 50 [eofTok] = .error (.invalidArgument
      "Unexpected token found: BasicToken::TOKEN_EOF\nExpected INIT token at the beginning of the token stream.") ∧
    parseRun 50 [initTok, mkSynTok .INLINE_COMMENT, mkDataTok .COMMENT_LITERAL "c",
      intTok "7", eofTok] =
      .ok (.program [.exprStmt (.integerLiteral 7)], [eofTok]) := by
  constructor
  · exact parse_init_gate_and_body.1 50 eofTok [] (by decide)
  · rw [parse_init_gate_and_body.2 49
      [mkSynTok .INLINE_COMMENT, mkDataTok .COMMENT_LITERAL "c", intTok "7", eofTok]]
    rfl

/-- On a stream with no EOF marker anywhere, the driver loop can never
return successfully: its only successful exit requires the front token of
some suffix of the stream to be the EOF marker. -/
theorem buildASTLoop_no_eof_never_ok (fuel : Nat) : ∀ ts : List Token,
    (∀ t ∈ ts, isEOFTok t = false) →
    ∀ (body : List Stmt) (ts' : List Token),
      runP (buildASTLoop fuel) ts ≠ .ok (body, ts') := by
  induction fuel with
  | zero =>
    intro ts h body ts'
    simp [buildASTLoop, runP_pfail]
  | succ fuel ih =>
    intro ts h body ts'
    simp only [buildASTLoop, runP_bind, isEOFM, runP_peekM, runP_pure]
    cases ts with
    | nil => simp
    | cons t rest =>
      have ht : isEOFTok t = false := h t (by simp)
      simp only [runP_pure, runP_ite, ht, Bool.false_eq_true, if_false, runP_bind]
      cases hps : runP (parseStatement fuel) (t :: rest) with
      | error e => simp
      | ok p =>
        obtain ⟨st, ts1⟩ := p
        have hsuf1 : ts1.IsSuffix (t :: rest) := runP_ok_suffix _ hps
        cases hss : runP skipSemicolonM ts1 with
        | error e => simp [hss]
        | ok q =>
          obtain ⟨u, ts2⟩ := q
          have hsuf2 : ts2.IsSuffix (t :: rest) :=
            (runP_ok_suffix _ hss).trans hsuf1
          have h2 : ∀ t' ∈ ts2, isEOFTok t' = false :=
            fun t' ht' => h t' (hsuf2.subset ht')
          cases hl : runP (buildASTLoop fuel) ts2 with
          | error e => simp [hss, hl]
          | ok r =>
            obtain ⟨body2, ts3⟩ := r
            exact absurd hl (ih ts2 h2 body2 ts3)

/-- C9: for every token stream containing no EOF marker at all (in
particular any stream that lost its final EOF sentinel), `parse` never
returns a completed Program tree, whatever the fuel; a stream that ends at
the sentinel in the middle of an expression (`INIT 1 + EOF`) raises the
unrecognized-primary failure; and in this total embedding the front-token
accesses `peek`/`advance` on an emptied stream hit the error branch rather
than yielding anything. -/
theorem parse_fails_without_eof_sentinel :
    (∀ (fuel : Nat) (ts : List Token),
      (∀ t ∈ ts, isEOFTok t = false) →
      ∀ (p : Stmt) (rest' : List Token), parseRun fuel ts ≠ .ok (p, rest')) ∧
    parseRun 100 [initTok, intTok "1", mkOpTok .ADDITION, eofTok] =
      .error (.logicError "Unexpected token \"BasicToken::TOKEN_EOF\" found in primary expression.") ∧
    runP peekM [] = .error .undefinedBehavior ∧
    runP advanceM [] = .error .undefinedBehavior := by
  refine ⟨?_, by rfl, by rfl, by rfl⟩
  intro fuel ts h p rest'
  unfold parseRun parse
  simp only [runP_bind, runP_assertTokenM]
  cases ts with
  | nil => simp
  | cons t rest =>
    by_cases hinit : t.plainText = "BasicToken::INIT"
    · simp only [hinit, if_pos rfl]
      cases fuel with
      | zero => simp [buildAST, runP_pfail]
      | succ fuel =>
        simp only [buildAST, runP_bind]
        cases hl : runP (buildASTLoop fuel) rest with
        | error e => simp [hl]
        | ok r =>
          obtain ⟨body, ts1⟩ := r
          exact absurd hl
            (buildASTLoop_no_eof_never_ok fuel rest
              (fun t' ht' => h t' (List.mem_cons_of_mem t ht')) body ts1)
    · simp [hinit]

/-- Witness for C9's universal part at a concrete EOF-less stream
(`INIT 1`, sentinel missing): the parse does not return a Program. -/
theorem parse_fails_without_eof_sentinel_witness :
    parseRun 50 [initTok, intTok "1"] ≠
      .ok (.program [.exprStmt (.integerLiteral 1)], []) :=
  parse_fails_without_eof_sentinel.1 50 [initTok, intTok "1"] (by decide)
    (.program [.exprStmt (.integerLiteral 1)]) []
